import Mathlib

/-!
# API gateway: service registry, route matching and introspection

Shallow embedding of `gingateway/main.go`.

Modelling conventions
* A Go `string` is a Lean `String`; `len` and slicing are taken per character
  (they agree with Go's byte-wise operations on ASCII paths, and prefix tests
  agree on all well-formed UTF-8 text).
* A Go `map[string]*ServiceConfig` is a list of key/value entries with
  pairwise distinct keys.  The list order is a storage artefact: a `range`
  over the map may visit the entries in any order, so every function that
  ranges over the map takes the visiting order as an argument, constrained by
  `RangeOrder`.
* The pointed-to `ServiceConfig` values are never written after registration
  (as in `main`), so the map stores the values themselves.
* `log.Printf` calls only write to the process log and are left out.
* `gin.H` response objects are kept as key/value lists in source order.
* Library code (`url.Parse`, the director of
  `httputil.NewSingleHostReverseProxy`, the HTTP transport) is a parameter,
  collected in `Lib`.
-/

namespace GinGateway

/-! ## Data model -/

/-- ServiceConfig represents a microservice configuration (main.go:16-20). -/
structure ServiceConfig where
  Name : String
  BasePath : String
  Target : String
  deriving DecidableEq, Repr

/-- Go `map[string]*ServiceConfig`, as entries with distinct keys. -/
abbrev ServiceMap := List (String × ServiceConfig)

/-- Map read `m[k]`. -/
def ServiceMap.get? : ServiceMap → String → Option ServiceConfig
  | [], _ => none
  | (k', v) :: rest, k => if k' = k then some v else ServiceMap.get? rest k

/-- Map assignment `m[k] = v`: replaces the value of an existing key, adds a
new entry otherwise. -/
def ServiceMap.set : ServiceMap → String → ServiceConfig → ServiceMap
  | [], k, v => [(k, v)]
  | (k', v') :: rest, k, v =>
    if k' = k then (k, v) :: rest else (k', v') :: ServiceMap.set rest k v

/-- The orders in which `for ... := range m` may visit the entries of `m`:
every entry exactly once, in an unspecified order. -/
def RangeOrder (m order : ServiceMap) : Prop := List.Perm order m

instance (m order : ServiceMap) : Decidable (RangeOrder m order) :=
  inferInstanceAs (Decidable (List.Perm order m))

/-- Gateway represents the API Gateway (main.go:23-25). -/
structure Gateway where
  services : ServiceMap
  deriving DecidableEq, Repr

/-- NewGateway creates a new API Gateway (main.go:28-32). -/
def NewGateway : Gateway := { services := [] }

/-- RegisterService registers a microservice with the gateway (main.go:35-38):
`g.services[config.Name] = config`.  It has no result and no failure path. -/
def RegisterService (g : Gateway) (config : ServiceConfig) : Gateway :=
  { services := g.services.set config.Name config }

/-- The registry after a sequence of `RegisterService` calls on a new gateway. -/
def registerAll (configs : List ServiceConfig) : Gateway :=
  configs.foldl RegisterService NewGateway

/-- Go `strings.HasPrefix(s, prefix)`:
`len(s) >= len(prefix) && s[:len(prefix)] == prefix`. -/
def HasPrefix (s pfx : String) : Bool :=
  decide (s.length ≥ pfx.length) && (s.data.take pfx.length == pfx.data)

/-- The matching loop of `ProxyHandler` (main.go:46-52), run over the entries
in the order `range` visits them: the first visited service whose `BasePath`
passes `strings.HasPrefix(path, service.BasePath)` is kept and the loop breaks;
`none` is the nil `targetService`. -/
def targetService : ServiceMap → String → Option ServiceConfig
  | [], _ => none
  | (_, service) :: rest, path =>
    if HasPrefix path service.BasePath then some service else targetService rest path

/-! ## HTTP values -/

/-- JSON values written by `c.JSON`. -/
inductive JSON where
  | str : String → JSON
  | num : Int → JSON
  | arr : List JSON → JSON
  | obj : List (String × JSON) → JSON

/-- A response body: a JSON document (`c.JSON`) or raw bytes (`w.Write`). -/
inductive Body where
  | json : JSON → Body
  | text : String → Body

/-- What the client receives: status code and body. -/
structure Response where
  Status : Nat
  Body : Body

/-- Go `url.URL`, the parts the gateway touches. -/
structure URL where
  Scheme : String
  Host : String
  Path : String
  RawQuery : String
  deriving DecidableEq, Repr

/-- Go `http.Request`, the parts the gateway touches. -/
structure Request where
  Method : String
  Host : String
  URL : URL
  deriving DecidableEq, Repr

/-- Library behaviour the handler is parameterised by. -/
structure Lib where
  /-- Result of `url.Parse`; `none` is a non-nil `err`. -/
  Parse : String → Option URL
  /-- The director installed by `httputil.NewSingleHostReverseProxy target`. -/
  Director : URL → Request → Request
  /-- The transport round trip: the upstream response or a transport error. -/
  RoundTrip : Request → Except String Response

/-- `http.StatusOK` etc. -/
def StatusOK : Nat := 200
def StatusNotFound : Nat := 404
def StatusInternalServerError : Nat := 500
def StatusBadGateway : Nat := 502

/-- The result of running a handler: the response written and the upstream
requests issued on the way, in order. -/
structure Handled where
  response : Response
  upstream : List Request

/-- The `proxy.ErrorHandler` closure of `ProxyHandler` (main.go:84-88):
`w.WriteHeader(http.StatusBadGateway); w.Write([]byte("Service unavailable"))`.
The matched service and the error do not enter the response. -/
def ErrorHandler (_matched : ServiceConfig) (_err : String) : Response :=
  { Status := StatusBadGateway, Body := Body.text "Service unavailable" }

/-- The `proxy.Director` closure of `ProxyHandler` (main.go:74-81):
`originalDirector(req); req.Host = targetURL.Host`. -/
def Director (lib : Lib) (targetURL : URL) (req : Request) : Request :=
  { lib.Director targetURL req with Host := targetURL.Host }

/-- `proxy.ServeHTTP` of `httputil.ReverseProxy`: the director rewrites the
outbound request, one transport round trip is made, and a transport error is
handed to the error handler while a response is relayed. -/
def ServeHTTP (lib : Lib) (director : Request → Request)
    (errorHandler : String → Response) (req : Request) : Handled :=
  let outreq := director req
  match lib.RoundTrip outreq with
  | Except.error err => { response := errorHandler err, upstream := [outreq] }
  | Except.ok res => { response := res, upstream := [outreq] }

/-- ProxyHandler handles the proxy routing (main.go:41-93).  `order` is the
order in which the `range` over `g.services` visits the entries. -/
def ProxyHandler (lib : Lib) (order : ServiceMap) (req : Request) : Handled :=
  let path := req.URL.Path
  match targetService order path with
  | none =>
    { response := { Status := StatusNotFound,
                    Body := Body.json (JSON.obj [("error", JSON.str "Service not found"),
                                                 ("path", JSON.str path)]) },
      upstream := [] }
  | some service =>
    match lib.Parse service.Target with
    | none =>
      { response := { Status := StatusInternalServerError,
                      Body := Body.json (JSON.obj [("error", JSON.str "Invalid target URL")]) },
        upstream := [] }
    | some targetURL =>
      ServeHTTP lib (Director lib targetURL) (ErrorHandler service) req

/-- HealthCheckHandler handles health check requests (main.go:96-105); `now`
is `time.Now().Unix()`. -/
def HealthCheckHandler (g : Gateway) (now : Int) : Response :=
  { Status := StatusOK,
    Body := Body.json (JSON.obj [("status", JSON.str "ok"),
                                 ("service", JSON.str "api-gateway"),
                                 ("timestamp", JSON.num now),
                                 ("services", JSON.num g.services.length)]) }

/-- The object appended for one visited entry in `ServicesHandler`
(main.go:112-116). -/
def serviceInfo (entry : String × ServiceConfig) : JSON :=
  JSON.obj [("name", JSON.str entry.1),
            ("base_path", JSON.str entry.2.BasePath),
            ("target", JSON.str entry.2.Target)]

/-- ServicesHandler returns information about registered services
(main.go:108-123).  `order` is the order in which the `range` over
`g.services` visits the entries; each visit appends one object. -/
def ServicesHandler (order : ServiceMap) : Response :=
  { Status := StatusOK,
    Body := Body.json (JSON.obj [("services", JSON.arr (order.map serviceInfo))]) }

/-- The two services registered by `main` (main.go:130-140). -/
def userService : ServiceConfig :=
  { Name := "user-service", BasePath := "/api/v1/users", Target := "http://localhost:8080" }

def orderService : ServiceConfig :=
  { Name := "order-service", BasePath := "/api/v1/orders", Target := "http://localhost:8081" }

def mainGateway : Gateway :=
  RegisterService (RegisterService NewGateway userService) orderService


/-! ## Notions taken from the specification -/

/-- Segment-aligned prefix match, in the specification's words: the path equals
the prefix, or is the prefix followed by `/` and further characters. -/
def SegmentAligned (path pfx : String) : Bool :=
  path == pfx || HasPrefix path (pfx ++ "/")

/-- Prefix overlap, in the specification's words: the two prefixes are equal, or
one is a proper prefix of the other. -/
def Overlaps (p q : String) : Bool :=
  p == q || (p != q && HasPrefix p q) || (p != q && HasPrefix q p)

/-! ## Example inputs -/

/-- A service whose base path is a proper prefix of `userService.BasePath`. -/
def apiService : ServiceConfig :=
  { Name := "api", BasePath := "/api/v1", Target := "http://localhost:9000" }

/-- A second configuration under the name of `userService`. -/
def userServiceV2 : ServiceConfig :=
  { Name := "user-service", BasePath := "/api/v2/users", Target := "http://localhost:9090" }

/-- A registry holding two overlapping base paths. -/
def overlapGateway : Gateway := registerAll [apiService, userService]

/-- A request for `path` with the given method, as received on port 8082. -/
def request (method path : String) : Request :=
  { Method := method, Host := "localhost:8082",
    URL := { Scheme := "", Host := "", Path := path, RawQuery := "" } }

/-- A library environment in which every target parses and every upstream is
unreachable. -/
def offlineLib : Lib :=
  { Parse := fun target => some { Scheme := "http", Host := target.drop 7, Path := "", RawQuery := "" },
    Director := fun target req =>
      { req with URL := { req.URL with Scheme := target.Scheme, Host := target.Host } },
    RoundTrip := fun _ => Except.error "dial tcp: connect: connection refused" }

/-! ## The library director and the handlers' memory -/

/-- Go `strings.HasSuffix(s, suffix)`:
`len(s) >= len(suffix) && s[len(s)-len(suffix):] == suffix`. -/
def HasSuffix (s suffix : String) : Bool :=
  decide (s.length ≥ suffix.length) &&
    (s.data.drop (s.length - suffix.length) == suffix.data)

/-- Go standard library, `net/http/httputil`, `singleJoiningSlash(a, b)`: joins
two paths with exactly one slash between them. -/
def singleJoiningSlash (a b : String) : String :=
  let aslash := HasSuffix a "/"
  let bslash := HasPrefix b "/"
  if aslash && bslash then a ++ b.drop 1
  else if !aslash && !bslash then a ++ "/" ++ b
  else a ++ b

/-- Go standard library, `net/http/httputil`, `rewriteRequestURL(req, target)`,
the director that `NewSingleHostReverseProxy(target)` installs: the outbound URL
takes the scheme and host of the target, the joined path and the joined query.
(`RawPath` is empty on both sides here, so `joinURLPath` is
`singleJoiningSlash` on the paths.) -/
def rewriteRequestURL (target : URL) (req : Request) : Request :=
  { req with
    URL := { Scheme := target.Scheme,
             Host := target.Host,
             Path := singleJoiningSlash target.Path req.URL.Path,
             RawQuery :=
               if target.RawQuery == "" || req.URL.RawQuery == "" then
                 target.RawQuery ++ req.URL.RawQuery
               else target.RawQuery ++ "&" ++ req.URL.RawQuery } }

/-- The memory one handler run of the gateway works on: the gateway behind the
receiver pointer `g`, what has been written to the response writer `c.Writer`
(`none`: nothing yet) and the requests the reverse proxy has sent upstream,
oldest first. -/
structure World where
  gateway : Gateway
  written : Option Response
  upstream : List Request

/-- The call `c.JSON(code, obj)`: status and JSON body go to the response
writer. -/
def World.writeJSON (w : World) (code : Nat) (obj : JSON) : World :=
  { w with written := some { Status := code, Body := Body.json obj } }

/-- The call `proxy.ServeHTTP(c.Writer, c.Request)` on the handler's memory: the
director rewrites the outbound request, the transport sends it (it joins the
upstream log), and the upstream response or, on a transport error, the error
handler's response goes to the response writer. -/
def World.ServeHTTP (w : World) (lib : Lib) (director : Request → Request)
    (errorHandler : String → Response) (req : Request) : World :=
  let outreq := director req
  let sent := { w with upstream := w.upstream ++ [outreq] }
  match lib.RoundTrip outreq with
  | Except.error err => { sent with written := some (errorHandler err) }
  | Except.ok res => { sent with written := some res }

/-- RegisterService (main.go:35-38) as a step on the same memory: the statement
`g.services[config.Name] = config`, the one place of the program that writes
the registry. -/
def World.RegisterService (w : World) (config : ServiceConfig) : World :=
  { w with gateway := { services := w.gateway.services.set config.Name config } }

/-- The `gin.HandlerFunc` returned by `ProxyHandler` (main.go:42-92), statement
by statement on the handler's memory.  `visit` gives the order in which the
`range` over `g.services` visits the entries it reads. -/
def ProxyHandler.HandlerFunc (lib : Lib) (visit : ServiceMap → ServiceMap) (req : Request)
    (w : World) : World :=
  let path := req.URL.Path
  match targetService (visit w.gateway.services) path with
  | none =>
    w.writeJSON StatusNotFound
      (JSON.obj [("error", JSON.str "Service not found"), ("path", JSON.str path)])
  | some service =>
    match lib.Parse service.Target with
    | none =>
      w.writeJSON StatusInternalServerError (JSON.obj [("error", JSON.str "Invalid target URL")])
    | some targetURL =>
      w.ServeHTTP lib (Director lib targetURL) (ErrorHandler service) req

/-- The `gin.HandlerFunc` returned by `HealthCheckHandler` (main.go:97-104) on the
handler's memory; `now` is `time.Now().Unix()`. -/
def HealthCheckHandler.HandlerFunc (now : Int) (w : World) : World :=
  w.writeJSON StatusOK
    (JSON.obj [("status", JSON.str "ok"),
               ("service", JSON.str "api-gateway"),
               ("timestamp", JSON.num now),
               ("services", JSON.num w.gateway.services.length)])

/-- The `gin.HandlerFunc` returned by `ServicesHandler` (main.go:109-122) on the
handler's memory: the loop appends one object per entry the `range` visits. -/
def ServicesHandler.HandlerFunc (visit : ServiceMap → ServiceMap) (w : World) : World :=
  let services := (visit w.gateway.services).map serviceInfo
  w.writeJSON StatusOK (JSON.obj [("services", JSON.arr services)])

/-- A library environment in which the target `http://u:8080?x=1` parses with
its query and the target `http://u:8080/base/` with its path. -/
def queryLib : Lib :=
  { Parse := fun target =>
      if target = "http://u:8080?x=1" then
        some { Scheme := "http", Host := "u:8080", Path := "", RawQuery := "x=1" }
      else if target = "http://u:8080/base/" then
        some { Scheme := "http", Host := "u:8080", Path := "/base/", RawQuery := "" }
      else none,
    Director := rewriteRequestURL,
    RoundTrip := fun _ => Except.ok { Status := 200, Body := Body.text "user 42" } }

/-- A route whose target carries a query. -/
def queryUsers : ServiceConfig :=
  { Name := "users", BasePath := "/api/v1/users", Target := "http://u:8080?x=1" }

/-- A route whose target carries a path that ends in a slash. -/
def baseUsers : ServiceConfig :=
  { Name := "users", BasePath := "/api/v1/users", Target := "http://u:8080/base/" }

/-- A library environment with the standard director, in which the target
`http://u:8080` parses and the upstream answers every request with `200`. -/
def onlineLib : Lib :=
  { Parse := fun target =>
      some { Scheme := "http", Host := target.drop 7, Path := "", RawQuery := "" },
    Director := rewriteRequestURL,
    RoundTrip := fun _ => Except.ok { Status := 200, Body := Body.text "user 42" } }

/-- A library environment in which no target parses. -/
def unparsableLib : Lib :=
  { Parse := fun _ => none,
    Director := rewriteRequestURL,
    RoundTrip := fun _ => Except.error "unreachable" }

/-- The route of scenario A of the specification. -/
def scenarioUsers : ServiceConfig :=
  { Name := "users", BasePath := "/api/v1/users", Target := "http://u:8080" }

end GinGateway

/-!
# The user and order services

Shallow embedding of `internal/order` and `internal/user` (`model`,
`repository`, `service`, `handler`), as far as the properties below need them.

Modelling conventions
* A Go `error` is a `GoError`: the text returned by `Error()` together with the
  declaration that created the value.  `errors.New` allocates, so two package
  variables initialised by two `errors.New` calls are different under `==` even
  when their texts agree; the `origin` field keeps them apart.
* The `*gorm.DB` handle is a parameter (`DB`): its operations act on an abstract
  database state and return what gorm reports (`.Error`, `.RowsAffected`).
* The gRPC stub of the user service and gin's request binding are parameters:
  the stub is a function from the request to its result, the outcome of
  `c.ShouldBindJSON` is an argument of the handler.
* `uint` values are natural numbers (the ids parsed by the handlers fit 32
  bits, so no conversion in the code wraps); a `float64` is carried as its bit
  pattern and a `time.Time` as an instant, both are only copied.
-/

namespace Bweng

/-! ## Go values -/

/-- A Go `error` value: the declaration that allocated it and its text. -/
structure GoError where
  origin : String
  text : String
  deriving DecidableEq, Repr

/-- The method `err.Error()`. -/
def GoError.Error (err : GoError) : String := err.text

/-- `errors.New(text)`, evaluated by the declaration `origin`. -/
def errorsNew (origin text : String) : GoError := { origin := origin, text := text }

/-- `errors.Is(err, target)` for errors that wrap no other error. -/
def errorsIs (err target : GoError) : Bool := err == target

/-- `gorm.ErrRecordNotFound`. -/
def Gorm.ErrRecordNotFound : GoError :=
  errorsNew "gorm.io/gorm.ErrRecordNotFound" "record not found"

/-- Go `time.Time`, as an instant. -/
abbrev Time := Int

/-- Go `float64`, carried as its bit pattern. -/
structure Float64 where
  bits : Nat
  deriving DecidableEq, Repr

/-- The `*gorm.DB` handle on one table of rows `Row`, over database states `σ`. -/
structure DB (σ Row : Type) where
  /-- Outcome of `db.First(&row, id)`: the row read, or `.Error`. -/
  First : σ → Nat → Except GoError Row
  /-- Outcome of `db.Where(cond).First(&row)`. -/
  WhereFirst : σ → (Row → Bool) → Except GoError Row
  /-- Outcome of `db.Create(row)`: the new state, the row as gorm leaves it behind the
  pointer (primary key filled in) and `.Error`. -/
  Create : σ → Row → σ × Row × Option GoError
  /-- Outcome of `db.Save(&row)`: the new state, the row as gorm leaves it behind the
  pointer (`UpdatedAt` set to the time of the save) and `.Error`. -/
  Save : σ → Row → σ × Row × Option GoError
  /-- Outcome of `db.Delete(&Row{}, id)`: the new state, `.Error` and `.RowsAffected`. -/
  Delete : σ → Nat → σ × Option GoError × Nat

/-- Go `strconv.ParseUint(s, 10, bitSize)`: `s` must be a non-empty string of
decimal digits whose value fits `bitSize` bits; `none` is a non-nil `err`. -/
def ParseUint (s : String) (bitSize : Nat) : Option Nat :=
  if s.data = [] then none
  else if s.data.all Char.isDigit then
    let n := s.data.foldl (fun acc c => 10 * acc + (c.toNat - 48)) 0
    if n < 2 ^ bitSize then some n else none
  else none

/-- The body a handler writes: `c.JSON(code, gin.H{...})`, `c.JSON(code, v)` for a
model value `v`, or nothing (`c.Status(code)`). -/
inductive Written (α : Type) where
  | json : GinGateway.JSON → Written α
  | value : α → Written α
  | nothing : Written α

/-- The response of a service handler. -/
structure Reply (α : Type) where
  Status : Nat
  Body : Written α

/-- The call `c.JSON(code, gin.H{"error": message})`. -/
def errorJSON {α : Type} (code : Nat) (message : String) : Reply α :=
  { Status := code,
    Body := Written.json (GinGateway.JSON.obj [("error", GinGateway.JSON.str message)]) }

/-- Status codes of `net/http`. -/
def StatusOK : Nat := 200
def StatusCreated : Nat := 201
def StatusNoContent : Nat := 204
def StatusBadRequest : Nat := 400
def StatusNotFound : Nat := 404
def StatusConflict : Nat := 409
def StatusInternalServerError : Nat := 500

/-! ## Order service -/

namespace Orders

/-- OrderStatus represents the status of an order (order.go:6-15). -/
abbrev OrderStatus := String

def OrderStatusPending : OrderStatus := "pending"
def OrderStatusConfirmed : OrderStatus := "confirmed"
def OrderStatusShipped : OrderStatus := "shipped"
def OrderStatusDelivered : OrderStatus := "delivered"
def OrderStatusCancelled : OrderStatus := "cancelled"

/-- Order represents an order in the system (order.go:18-27). -/
structure Order where
  ID : Nat
  UserID : Nat
  ProductName : String
  Price : Float64
  Quantity : Int
  Status : OrderStatus
  CreatedAt : Time
  UpdatedAt : Time
  deriving DecidableEq, Repr

/-- CreateOrderRequest represents the request to create a new order. -/
structure CreateOrderRequest where
  UserID : Nat
  ProductName : String
  Price : Float64
  Quantity : Int
  deriving DecidableEq, Repr

/-- UpdateOrderStatusRequest represents the request to update order status. -/
structure UpdateOrderStatusRequest where
  Status : OrderStatus
  deriving DecidableEq, Repr

/-- OrderResponse represents the response for order operations. -/
structure OrderResponse where
  ID : Nat
  UserID : Nat
  ProductName : String
  Price : Float64
  Quantity : Int
  Status : OrderStatus
  CreatedAt : Time
  UpdatedAt : Time
  deriving DecidableEq, Repr

/-- The generated type `user.User` of `bweng/api/proto/user`, with the fields the
sources set (cmd/user/main.go:62-68). -/
structure ProtoUser where
  Id : Nat
  Username : String
  Email : String
  FirstName : String
  LastName : String
  deriving DecidableEq, Repr

/-- The generated type `user.UserResponse`: the fields `User` (a pointer, nil when
unset) and `Error` (cmd/user/main.go:58-69, user_client.go:49-53). -/
structure ProtoUserResponse where
  User : Option ProtoUser
  Error : String
  deriving DecidableEq, Repr

/-- The generated type `user.GetUserByIDRequest`. -/
structure GetUserByIDRequest where
  Id : Nat
  deriving DecidableEq, Repr

/-- The gRPC stub method `client.GetUserByID(ctx, req)`: the response or the
transport error. -/
abbrev UserServiceClient := GetUserByIDRequest → Except GoError ProtoUserResponse

namespace repository

/-- Package variables of `order/repository` (order_repository.go:10-13). -/
def ErrOrderNotFound : GoError :=
  errorsNew "bweng/internal/order/repository.ErrOrderNotFound" "order not found"

def ErrInvalidUserID : GoError :=
  errorsNew "bweng/internal/order/repository.ErrInvalidUserID" "invalid user ID"

/-- Create creates a new order (order_repository.go:28-30). -/
def Create {σ : Type} (db : DB σ Order) (st : σ) (order : Order) :
    σ × Order × Option GoError :=
  db.Create st order

/-- GetByID retrieves an order by ID (order_repository.go:33-42). -/
def GetByID {σ : Type} (db : DB σ Order) (st : σ) (id : Nat) : Except GoError Order :=
  match db.First st id with
  | Except.error err =>
    if errorsIs err Gorm.ErrRecordNotFound then Except.error ErrOrderNotFound
    else Except.error err
  | Except.ok order => Except.ok order

/-- UpdateStatus updates an order's status (order_repository.go:63-78). -/
def UpdateStatus {σ : Type} (db : DB σ Order) (st : σ) (id : Nat) (status : OrderStatus) :
    σ × Except GoError Order :=
  match db.First st id with
  | Except.error err =>
    if errorsIs err Gorm.ErrRecordNotFound then (st, Except.error ErrOrderNotFound)
    else (st, Except.error err)
  | Except.ok order =>
    let order := { order with Status := status }
    match db.Save st order with
    | (st', _, some err) => (st', Except.error err)
    | (st', order, none) => (st', Except.ok order)

/-- Delete deletes an order by ID (order_repository.go:81-90). -/
def Delete {σ : Type} (db : DB σ Order) (st : σ) (id : Nat) : σ × Option GoError :=
  match db.Delete st id with
  | (st', some err, _) => (st', some err)
  | (st', none, rowsAffected) =>
    if rowsAffected = 0 then (st', some ErrOrderNotFound) else (st', none)

end repository

namespace service

/-- Package variables of `order/service` (order_service.go:12-16). -/
def ErrOrderNotFound : GoError :=
  errorsNew "bweng/internal/order/service.ErrOrderNotFound" "order not found"

def ErrInvalidUserID : GoError :=
  errorsNew "bweng/internal/order/service.ErrInvalidUserID" "invalid user ID"

def ErrUserNotFound : GoError :=
  errorsNew "bweng/internal/order/service.ErrUserNotFound" "user not found"

/-- GetUserByID retrieves a user by ID from user service (user_client.go:39-54). -/
def UserClient.GetUserByID (client : UserServiceClient) (userID : Nat) :
    Except GoError (Option ProtoUser) :=
  let req : GetUserByIDRequest := { Id := userID }
  match client req with
  | Except.error err => Except.error err
  | Except.ok resp =>
    if resp.Error != "" then Except.error ErrUserNotFound else Except.ok resp.User

/-- ValidateUserExists checks if a user exists (user_client.go:57-60); `none` is
a nil error. -/
def UserClient.ValidateUserExists (client : UserServiceClient) (userID : Nat) :
    Option GoError :=
  match UserClient.GetUserByID client userID with
  | Except.error err => some err
  | Except.ok _ => none

/-- The method toOrderResponse converts an Order model to OrderResponse
(order_service.go:117-128). -/
def toOrderResponse (order : Order) : OrderResponse :=
  { ID := order.ID,
    UserID := order.UserID,
    ProductName := order.ProductName,
    Price := order.Price,
    Quantity := order.Quantity,
    Status := order.Status,
    CreatedAt := order.CreatedAt,
    UpdatedAt := order.UpdatedAt }

/-- CreateOrder creates a new order (order_service.go:33-56); `now` is
`time.Now()`. -/
def CreateOrder {σ : Type} (db : DB σ Order) (client : UserServiceClient) (now : Time)
    (st : σ) (req : CreateOrderRequest) : σ × Except GoError OrderResponse :=
  match UserClient.ValidateUserExists client req.UserID with
  | some _ => (st, Except.error ErrUserNotFound)
  | none =>
    let order : Order :=
      { ID := 0,
        UserID := req.UserID,
        ProductName := req.ProductName,
        Price := req.Price,
        Quantity := req.Quantity,
        Status := OrderStatusPending,
        CreatedAt := now,
        UpdatedAt := now }
    match repository.Create db st order with
    | (st', _, some err) => (st', Except.error err)
    | (st', order', none) => (st', Except.ok (toOrderResponse order'))

/-- GetOrderByID retrieves an order by ID (order_service.go:59-66). -/
def GetOrderByID {σ : Type} (db : DB σ Order) (st : σ) (id : Nat) :
    Except GoError OrderResponse :=
  match repository.GetByID db st id with
  | Except.error err => Except.error err
  | Except.ok order => Except.ok (toOrderResponse order)

/-- UpdateOrderStatus updates an order's status (order_service.go:99-109). -/
def UpdateOrderStatus {σ : Type} (db : DB σ Order) (now : Time) (st : σ) (id : Nat)
    (req : UpdateOrderStatusRequest) : σ × Except GoError OrderResponse :=
  match repository.UpdateStatus db st id req.Status with
  | (st', Except.error err) => (st', Except.error err)
  | (st', Except.ok order) =>
    (st', Except.ok (toOrderResponse { order with UpdatedAt := now }))

/-- DeleteOrder deletes an order by ID (order_service.go:112-114). -/
def DeleteOrder {σ : Type} (db : DB σ Order) (st : σ) (id : Nat) : σ × Option GoError :=
  repository.Delete db st id

end service

namespace handler

/-- CreateOrder (order_handler.go:35-53); `bound` is the outcome of
`c.ShouldBindJSON(&req)`. -/
def CreateOrder {σ : Type} (db : DB σ Order) (client : UserServiceClient) (now : Time)
    (st : σ) (bound : Except GoError CreateOrderRequest) : σ × Reply OrderResponse :=
  match bound with
  | Except.error err => (st, errorJSON StatusBadRequest err.Error)
  | Except.ok req =>
    match service.CreateOrder db client now st req with
    | (st', Except.error err) =>
      if err = service.ErrUserNotFound then (st', errorJSON StatusNotFound "User not found")
      else (st', errorJSON StatusInternalServerError err.Error)
    | (st', Except.ok order) => (st', { Status := StatusCreated, Body := Written.value order })

/-- GetOrderByID (order_handler.go:65-84); `idStr` is `c.Param("id")`. -/
def GetOrderByID {σ : Type} (db : DB σ Order) (st : σ) (idStr : String) :
    Reply OrderResponse :=
  match ParseUint idStr 32 with
  | none => errorJSON StatusBadRequest "Invalid order ID"
  | some id =>
    match service.GetOrderByID db st id with
    | Except.error err =>
      if err = service.ErrOrderNotFound then errorJSON StatusNotFound "Order not found"
      else errorJSON StatusInternalServerError err.Error
    | Except.ok order => { Status := StatusOK, Body := Written.value order }

/-- UpdateOrderStatus (order_handler.go:143-168). -/
def UpdateOrderStatus {σ : Type} (db : DB σ Order) (now : Time) (st : σ) (idStr : String)
    (bound : Except GoError UpdateOrderStatusRequest) : σ × Reply OrderResponse :=
  match ParseUint idStr 32 with
  | none => (st, errorJSON StatusBadRequest "Invalid order ID")
  | some id =>
    match bound with
    | Except.error err => (st, errorJSON StatusBadRequest err.Error)
    | Except.ok req =>
      match service.UpdateOrderStatus db now st id req with
      | (st', Except.error err) =>
        if err = service.ErrOrderNotFound then (st', errorJSON StatusNotFound "Order not found")
        else (st', errorJSON StatusInternalServerError err.Error)
      | (st', Except.ok order) => (st', { Status := StatusOK, Body := Written.value order })

/-- DeleteOrder (order_handler.go:180-199). -/
def DeleteOrder {σ : Type} (db : DB σ Order) (st : σ) (idStr : String) :
    σ × Reply OrderResponse :=
  match ParseUint idStr 32 with
  | none => (st, errorJSON StatusBadRequest "Invalid order ID")
  | some id =>
    match service.DeleteOrder db st id with
    | (st', some err) =>
      if err = service.ErrOrderNotFound then (st', errorJSON StatusNotFound "Order not found")
      else (st', errorJSON StatusInternalServerError err.Error)
    | (st', none) => (st', { Status := StatusNoContent, Body := Written.nothing })

end handler

end Orders

/-! ## User service -/

namespace Users

/-- User represents a user in the system (user.go:6-14). -/
structure User where
  ID : Nat
  Username : String
  Email : String
  FirstName : String
  LastName : String
  CreatedAt : Time
  UpdatedAt : Time
  deriving DecidableEq, Repr

/-- CreateUserRequest represents the request to create a new user. -/
structure CreateUserRequest where
  Username : String
  Email : String
  FirstName : String
  LastName : String
  deriving DecidableEq, Repr

/-- UpdateUserRequest represents the request to update a user. -/
structure UpdateUserRequest where
  Username : String
  Email : String
  FirstName : String
  LastName : String
  deriving DecidableEq, Repr

/-- UserResponse represents the response for user operations. -/
structure UserResponse where
  ID : Nat
  Username : String
  Email : String
  FirstName : String
  LastName : String
  CreatedAt : Time
  UpdatedAt : Time
  deriving DecidableEq, Repr

namespace repository

/-- Package variables of `user/repository` (user_repository.go:10-13). -/
def ErrUserNotFound : GoError :=
  errorsNew "bweng/internal/user/repository.ErrUserNotFound" "user not found"

def ErrUserExists : GoError :=
  errorsNew "bweng/internal/user/repository.ErrUserExists" "user already exists"

/-- Create creates a new user (user_repository.go:28-36): the lookup
`Where("email = ? OR username = ?", user.Email, user.Username).First` comes
first, and only when it reports an error is the row created. -/
def Create {σ : Type} (db : DB σ User) (st : σ) (user : User) : σ × User × Option GoError :=
  match db.WhereFirst st (fun u => u.Email == user.Email || u.Username == user.Username) with
  | Except.ok _ => (st, user, some ErrUserExists)
  | Except.error _ => db.Create st user

/-- GetByID retrieves a user by ID (user_repository.go:39-48). -/
def GetByID {σ : Type} (db : DB σ User) (st : σ) (id : Nat) : Except GoError User :=
  match db.First st id with
  | Except.error err =>
    if errorsIs err Gorm.ErrRecordNotFound then Except.error ErrUserNotFound
    else Except.error err
  | Except.ok user => Except.ok user

/-- GetByEmail retrieves a user by email (user_repository.go:51-60). -/
def GetByEmail {σ : Type} (db : DB σ User) (st : σ) (email : String) : Except GoError User :=
  match db.WhereFirst st (fun u => u.Email == email) with
  | Except.error err =>
    if errorsIs err Gorm.ErrRecordNotFound then Except.error ErrUserNotFound
    else Except.error err
  | Except.ok user => Except.ok user

/-- GetByUsername retrieves a user by username (user_repository.go:63-72). -/
def GetByUsername {σ : Type} (db : DB σ User) (st : σ) (username : String) :
    Except GoError User :=
  match db.WhereFirst st (fun u => u.Username == username) with
  | Except.error err =>
    if errorsIs err Gorm.ErrRecordNotFound then Except.error ErrUserNotFound
    else Except.error err
  | Except.ok user => Except.ok user

/-- Update updates an existing user (user_repository.go:84-112). -/
def Update {σ : Type} (db : DB σ User) (st : σ) (id : Nat) (updates : UpdateUserRequest) :
    σ × Except GoError User :=
  match db.First st id with
  | Except.error err =>
    if errorsIs err Gorm.ErrRecordNotFound then (st, Except.error ErrUserNotFound)
    else (st, Except.error err)
  | Except.ok user =>
    let user := if updates.Username != "" then { user with Username := updates.Username } else user
    let user := if updates.Email != "" then { user with Email := updates.Email } else user
    let user :=
      if updates.FirstName != "" then { user with FirstName := updates.FirstName } else user
    let user := if updates.LastName != "" then { user with LastName := updates.LastName } else user
    match db.Save st user with
    | (st', _, some err) => (st', Except.error err)
    | (st', user, none) => (st', Except.ok user)

/-- Delete deletes a user by ID (user_repository.go:115-124). -/
def Delete {σ : Type} (db : DB σ User) (st : σ) (id : Nat) : σ × Option GoError :=
  match db.Delete st id with
  | (st', some err, _) => (st', some err)
  | (st', none, rowsAffected) =>
    if rowsAffected = 0 then (st', some ErrUserNotFound) else (st', none)

end repository

namespace service

/-- Package variables of `user/service` (user_service.go:11-14). -/
def ErrUserNotFound : GoError :=
  errorsNew "bweng/internal/user/service.ErrUserNotFound" "user not found"

def ErrUserExists : GoError :=
  errorsNew "bweng/internal/user/service.ErrUserExists" "user already exists"

/-- The method toUserResponse converts a User model to UserResponse
(user_service.go:111-121). -/
def toUserResponse (user : User) : UserResponse :=
  { ID := user.ID,
    Username := user.Username,
    Email := user.Email,
    FirstName := user.FirstName,
    LastName := user.LastName,
    CreatedAt := user.CreatedAt,
    UpdatedAt := user.UpdatedAt }

/-- CreateUser creates a new user (user_service.go:29-46); `now` is `time.Now()`. -/
def CreateUser {σ : Type} (db : DB σ User) (now : Time) (st : σ) (req : CreateUserRequest) :
    σ × Except GoError UserResponse :=
  let user : User :=
    { ID := 0,
      Username := req.Username,
      Email := req.Email,
      FirstName := req.FirstName,
      LastName := req.LastName,
      CreatedAt := now,
      UpdatedAt := now }
  match repository.Create db st user with
  | (st', _, some err) => (st', Except.error err)
  | (st', user', none) => (st', Except.ok (toUserResponse user'))

/-- GetUserByID retrieves a user by ID (user_service.go:49-56). -/
def GetUserByID {σ : Type} (db : DB σ User) (st : σ) (id : Nat) :
    Except GoError UserResponse :=
  match repository.GetByID db st id with
  | Except.error err => Except.error err
  | Except.ok user => Except.ok (toUserResponse user)

/-- GetUserByEmail retrieves a user by email (user_service.go:59-66). -/
def GetUserByEmail {σ : Type} (db : DB σ User) (st : σ) (email : String) :
    Except GoError UserResponse :=
  match repository.GetByEmail db st email with
  | Except.error err => Except.error err
  | Except.ok user => Except.ok (toUserResponse user)

/-- GetUserByUsername retrieves a user by username (user_service.go:69-76). -/
def GetUserByUsername {σ : Type} (db : DB σ User) (st : σ) (username : String) :
    Except GoError UserResponse :=
  match repository.GetByUsername db st username with
  | Except.error err => Except.error err
  | Except.ok user => Except.ok (toUserResponse user)

/-- UpdateUser updates an existing user (user_service.go:94-104). -/
def UpdateUser {σ : Type} (db : DB σ User) (now : Time) (st : σ) (id : Nat)
    (req : UpdateUserRequest) : σ × Except GoError UserResponse :=
  match repository.Update db st id req with
  | (st', Except.error err) => (st', Except.error err)
  | (st', Except.ok user) => (st', Except.ok (toUserResponse { user with UpdatedAt := now }))

/-- DeleteUser deletes a user by ID (user_service.go:107-109). -/
def DeleteUser {σ : Type} (db : DB σ User) (st : σ) (id : Nat) : σ × Option GoError :=
  repository.Delete db st id

end service

namespace handler

/-- CreateUser (user_handler.go:35-53); `bound` is the outcome of
`c.ShouldBindJSON(&req)`. -/
def CreateUser {σ : Type} (db : DB σ User) (now : Time) (st : σ)
    (bound : Except GoError CreateUserRequest) : σ × Reply UserResponse :=
  match bound with
  | Except.error err => (st, errorJSON StatusBadRequest err.Error)
  | Except.ok req =>
    match service.CreateUser db now st req with
    | (st', Except.error err) =>
      if err = service.ErrUserExists then (st', errorJSON StatusConflict "User already exists")
      else (st', errorJSON StatusInternalServerError err.Error)
    | (st', Except.ok user) => (st', { Status := StatusCreated, Body := Written.value user })

/-- GetUserByID (user_handler.go:65-84); `idStr` is `c.Param("id")`. -/
def GetUserByID {σ : Type} (db : DB σ User) (st : σ) (idStr : String) : Reply UserResponse :=
  match ParseUint idStr 32 with
  | none => errorJSON StatusBadRequest "Invalid user ID"
  | some id =>
    match service.GetUserByID db st id with
    | Except.error err =>
      if err = service.ErrUserNotFound then errorJSON StatusNotFound "User not found"
      else errorJSON StatusInternalServerError err.Error
    | Except.ok user => { Status := StatusOK, Body := Written.value user }

/-- GetUserByEmail (user_handler.go:96-114); `email` is `c.Query("email")`. -/
def GetUserByEmail {σ : Type} (db : DB σ User) (st : σ) (email : String) :
    Reply UserResponse :=
  if email == "" then errorJSON StatusBadRequest "Email parameter is required"
  else
    match service.GetUserByEmail db st email with
    | Except.error err =>
      if err = service.ErrUserNotFound then errorJSON StatusNotFound "User not found"
      else errorJSON StatusInternalServerError err.Error
    | Except.ok user => { Status := StatusOK, Body := Written.value user }

/-- GetUserByUsername (user_handler.go:126-144); `username` is
`c.Query("username")`. -/
def GetUserByUsername {σ : Type} (db : DB σ User) (st : σ) (username : String) :
    Reply UserResponse :=
  if username == "" then errorJSON StatusBadRequest "Username parameter is required"
  else
    match service.GetUserByUsername db st username with
    | Except.error err =>
      if err = service.ErrUserNotFound then errorJSON StatusNotFound "User not found"
      else errorJSON StatusInternalServerError err.Error
    | Except.ok user => { Status := StatusOK, Body := Written.value user }

/-- UpdateUser (user_handler.go:176-201). -/
def UpdateUser {σ : Type} (db : DB σ User) (now : Time) (st : σ) (idStr : String)
    (bound : Except GoError UpdateUserRequest) : σ × Reply UserResponse :=
  match ParseUint idStr 32 with
  | none => (st, errorJSON StatusBadRequest "Invalid user ID")
  | some id =>
    match bound with
    | Except.error err => (st, errorJSON StatusBadRequest err.Error)
    | Except.ok req =>
      match service.UpdateUser db now st id req with
      | (st', Except.error err) =>
        if err = service.ErrUserNotFound then (st', errorJSON StatusNotFound "User not found")
        else (st', errorJSON StatusInternalServerError err.Error)
      | (st', Except.ok user) => (st', { Status := StatusOK, Body := Written.value user })

/-- DeleteUser (user_handler.go:213-232). -/
def DeleteUser {σ : Type} (db : DB σ User) (st : σ) (idStr : String) :
    σ × Reply UserResponse :=
  match ParseUint idStr 32 with
  | none => (st, errorJSON StatusBadRequest "Invalid user ID")
  | some id =>
    match service.DeleteUser db st id with
    | (st', some err) =>
      if err = service.ErrUserNotFound then (st', errorJSON StatusNotFound "User not found")
      else (st', errorJSON StatusInternalServerError err.Error)
    | (st', none) => (st', { Status := StatusNoContent, Body := Written.nothing })

end handler

end Users

/-! ## Example inputs -/

/-- An in-memory table as database: rows are found by key or by condition,
`Create` appends the row under the next key, `Save` stamps the row with the time
of the save (`touch`) and replaces the row of the same key, and `Delete` removes
it; no operation fails other than by a missing row. -/
def memDB {Row : Type} (key : Row → Nat) (setKey : Nat → Row → Row) (touch : Row → Row) :
    DB (List Row) Row :=
  { First := fun rows id =>
      match rows.find? (fun r => key r == id) with
      | some r => Except.ok r
      | none => Except.error Gorm.ErrRecordNotFound,
    WhereFirst := fun rows cond =>
      match rows.find? cond with
      | some r => Except.ok r
      | none => Except.error Gorm.ErrRecordNotFound,
    Create := fun rows row =>
      (rows ++ [setKey (rows.length + 1) row], setKey (rows.length + 1) row, none),
    Save := fun rows row =>
      (rows.map (fun r => if key r == key row then touch row else r), touch row, none),
    Delete := fun rows id =>
      (rows.filter (fun r => key r != id), none, (rows.filter (fun r => key r == id)).length) }

/-- The in-memory user table; its clock reads 900 at every save. -/
def userDB : DB (List Users.User) Users.User :=
  memDB (fun u => u.ID) (fun id u => { u with ID := id }) (fun u => { u with UpdatedAt := 900 })

/-- The in-memory order table; its clock reads 900 at every save. -/
def orderDB : DB (List Orders.Order) Orders.Order :=
  memDB (fun o => o.ID) (fun id o => { o with ID := id }) (fun o => { o with UpdatedAt := 900 })

/-- A stored user. -/
def alice : Users.User :=
  { ID := 1, Username := "alice", Email := "alice@example.com", FirstName := "Alice",
    LastName := "Doe", CreatedAt := 100, UpdatedAt := 100 }

/-- A request to create a user with the email of `alice` under another username. -/
def aliceAgain : Users.CreateUserRequest :=
  { Username := "alice2", Email := "alice@example.com", FirstName := "Alice", LastName := "Doe" }

/-- A request to create an order for user 9, at the price 999.99. -/
def orderForNine : Orders.CreateOrderRequest :=
  { UserID := 9, ProductName := "iPhone 15", Price := { bits := 4652007220880259154 },
    Quantity := 1 }

/-- A user service in which no user exists: every lookup is answered with the
error text of the user service. -/
def noUserClient : Orders.UserServiceClient :=
  fun _ => Except.ok { User := none, Error := "user not found" }

/-- A user service in which every user exists. -/
def okUserClient : Orders.UserServiceClient :=
  fun req => Except.ok
    { User := some { Id := req.Id, Username := "nine", Email := "nine@example.com",
                     FirstName := "Nine", LastName := "Doe" },
      Error := "" }

/-- A request that changes the email of a user and nothing else. -/
def newEmail : Users.UpdateUserRequest :=
  { Username := "", Email := "alice@example.org", FirstName := "", LastName := "" }

/-- A user service that cannot be reached. -/
def downUserClient : Orders.UserServiceClient :=
  fun _ => Except.error (errorsNew "google.golang.org/grpc" "connection refused")

end Bweng

namespace GinGateway

/-! ## Prefix test -/

theorem HasPrefix_iff_isPrefix (s p : String) :
    HasPrefix s p = true ↔ p.data <+: s.data := by
  unfold HasPrefix
  rw [Bool.and_eq_true, decide_eq_true_iff, beq_iff_eq, List.prefix_iff_eq_take]
  constructor
  · rintro ⟨-, h⟩
    exact h.symm
  · intro h
    refine ⟨?_, h.symm⟩
    have := congrArg List.length h
    simp only [List.length_take, String.length] at this ⊢
    omega

theorem HasPrefix_iff_append (s p : String) :
    HasPrefix s p = true ↔ ∃ rest : String, s = p ++ rest := by
  rw [HasPrefix_iff_isPrefix]
  constructor
  · rintro ⟨t, ht⟩
    exact ⟨⟨t⟩, String.ext (by simpa using ht.symm)⟩
  · rintro ⟨rest, rfl⟩
    exact ⟨rest.data, by simp⟩

theorem HasPrefix_append (p rest : String) : HasPrefix (p ++ rest) p = true :=
  (HasPrefix_iff_append _ _).2 ⟨rest, rfl⟩

theorem HasPrefix_refl (p : String) : HasPrefix p p = true :=
  (HasPrefix_iff_append _ _).2 ⟨"", by simp⟩

theorem HasPrefix_trans {s p q : String} (h₁ : HasPrefix s p = true)
    (h₂ : HasPrefix p q = true) : HasPrefix s q = true := by
  rw [HasPrefix_iff_isPrefix] at *
  exact h₂.trans h₁

/-! ## The matching loop -/

theorem targetService_cons_hit {k : String} {v : ServiceConfig} {rest : ServiceMap}
    {path : String} (h : HasPrefix path v.BasePath = true) :
    targetService ((k, v) :: rest) path = some v := by
  simp [targetService, h]

theorem targetService_cons_miss {k : String} {v : ServiceConfig} {rest : ServiceMap}
    {path : String} (h : ¬ HasPrefix path v.BasePath = true) :
    targetService ((k, v) :: rest) path = targetService rest path := by
  simp [targetService, h]

theorem targetService_eq_none_iff (order : ServiceMap) (path : String) :
    targetService order path = none ↔
      ∀ e ∈ order, HasPrefix path e.2.BasePath = false := by
  induction order with
  | nil => simp [targetService]
  | cons e rest ih =>
    obtain ⟨k, v⟩ := e
    by_cases h : HasPrefix path v.BasePath = true
    · simp [targetService, h]
    · simp [targetService, h, ih]

theorem targetService_eq_some_iff (order : ServiceMap) (path : String) (s : ServiceConfig) :
    targetService order path = some s ↔
      ∃ pre k post, order = pre ++ (k, s) :: post ∧ HasPrefix path s.BasePath = true ∧
        ∀ e ∈ pre, HasPrefix path e.2.BasePath = false := by
  induction order with
  | nil => simp [targetService]
  | cons e rest ih =>
    obtain ⟨k, v⟩ := e
    by_cases h : HasPrefix path v.BasePath = true
    · rw [targetService_cons_hit h, Option.some.injEq]
      constructor
      · rintro rfl
        exact ⟨[], k, rest, rfl, h, by simp⟩
      · rintro ⟨pre, k', post, heq, hs, hpre⟩
        cases pre with
        | nil =>
          simp only [List.nil_append, List.cons.injEq, Prod.mk.injEq] at heq
          exact heq.1.2
        | cons e' pre' =>
          simp only [List.cons_append, List.cons.injEq] at heq
          have := hpre e' (List.mem_cons_self _ _)
          rw [← heq.1] at this
          simp [h] at this
    · rw [targetService_cons_miss h, ih]
      constructor
      · rintro ⟨pre, k', post, heq, hs, hpre⟩
        refine ⟨(k, v) :: pre, k', post, by simp [heq], hs, ?_⟩
        intro e he
        rcases List.mem_cons.1 he with rfl | he
        · simpa using h
        · exact hpre e he
      · rintro ⟨pre, k', post, heq, hs, hpre⟩
        cases pre with
        | nil =>
          simp only [List.nil_append, List.cons.injEq, Prod.mk.injEq] at heq
          rw [heq.1.2] at h
          exact absurd hs h
        | cons e' pre' =>
          simp only [List.cons_append, List.cons.injEq] at heq
          exact ⟨pre', k', post, heq.2, hs, fun e he => hpre e (List.mem_cons_of_mem _ he)⟩

theorem targetService_some_mem {order : ServiceMap} {path : String} {s : ServiceConfig}
    (h : targetService order path = some s) :
    (∃ k, (k, s) ∈ order) ∧ HasPrefix path s.BasePath = true := by
  obtain ⟨pre, k, post, rfl, hs, -⟩ := (targetService_eq_some_iff _ _ _).1 h
  exact ⟨⟨k, by simp⟩, hs⟩

theorem targetService_isSome_iff (order : ServiceMap) (path : String) :
    (targetService order path).isSome = true ↔
      ∃ e ∈ order, HasPrefix path e.2.BasePath = true := by
  rw [← Option.ne_none_iff_isSome, Ne, targetService_eq_none_iff]
  simp

/-- When every visited entry that passes the prefix test carries the service
`s`, and one does, the loop selects `s`. -/
theorem targetService_of_unique {order : ServiceMap} {path : String} {s : ServiceConfig}
    (hex : ∃ e ∈ order, HasPrefix path e.2.BasePath = true)
    (huniq : ∀ e ∈ order, HasPrefix path e.2.BasePath = true → e.2 = s) :
    targetService order path = some s := by
  have h := (targetService_isSome_iff order path).2 hex
  obtain ⟨t, ht⟩ := Option.isSome_iff_exists.1 h
  obtain ⟨⟨k, hk⟩, hp⟩ := targetService_some_mem ht
  rw [ht, ← huniq (k, t) hk hp]


/-! ## The registry map -/

namespace ServiceMap

theorem get?_set_self (m : ServiceMap) (k : String) (v : ServiceConfig) :
    (m.set k v).get? k = some v := by
  induction m with
  | nil => simp [set, get?]
  | cons e rest ih =>
    obtain ⟨k', v'⟩ := e
    by_cases h : k' = k
    · simp [set, get?, h]
    · simp [set, get?, h, ih]

theorem get?_set_of_ne (m : ServiceMap) {k k' : String} (v : ServiceConfig) (hne : k' ≠ k) :
    (m.set k v).get? k' = m.get? k' := by
  induction m with
  | nil => simp [set, get?, hne.symm]
  | cons e rest ih =>
    obtain ⟨k₀, v₀⟩ := e
    by_cases h : k₀ = k
    · subst h
      simp [set, get?, hne.symm]
    · by_cases h' : k₀ = k'
      · subst h'
        simp [set, get?, h]
      · simp [set, get?, h, h', ih]

theorem keys_set (m : ServiceMap) (k : String) (v : ServiceConfig) :
    (m.set k v).map Prod.fst =
      if k ∈ m.map Prod.fst then m.map Prod.fst else m.map Prod.fst ++ [k] := by
  induction m with
  | nil => simp [set]
  | cons e rest ih =>
    obtain ⟨k', v'⟩ := e
    by_cases h : k' = k
    · subst h
      simp [set]
    · have hne : ¬ k = k' := fun h' => h h'.symm
      by_cases hmem : k ∈ rest.map Prod.fst
      · simp only [set, h, if_false, List.map_cons, ih, hmem, if_true, List.mem_cons, or_true]
      · simp only [set, h, if_false, List.map_cons, ih, hmem, List.mem_cons, hne, or_self,
          List.cons_append]

theorem mem_set_self (m : ServiceMap) (k : String) (v : ServiceConfig) :
    (k, v) ∈ m.set k v := by
  induction m with
  | nil => simp [set]
  | cons e rest ih =>
    obtain ⟨k', v'⟩ := e
    by_cases h : k' = k
    · simp [set, h]
    · simp [set, h, ih]

theorem mem_set_of_ne {m : ServiceMap} {e : String × ServiceConfig} (k : String)
    (v : ServiceConfig) (he : e ∈ m) (hne : e.1 ≠ k) : e ∈ m.set k v := by
  induction m with
  | nil => cases he
  | cons e' rest ih =>
    obtain ⟨k', v'⟩ := e'
    by_cases h : k' = k
    · rcases List.mem_cons.1 he with rfl | he
      · exact absurd h hne
      · simp [set, h, he]
    · rcases List.mem_cons.1 he with rfl | he
      · simp [set, h]
      · simp [set, h, ih he]

theorem mem_of_mem_set {m : ServiceMap} {e : String × ServiceConfig} {k : String}
    {v : ServiceConfig} (hnd : (m.map Prod.fst).Nodup) (he : e ∈ m.set k v) :
    e = (k, v) ∨ (e ∈ m ∧ e.1 ≠ k) := by
  induction m with
  | nil => simpa [set] using he
  | cons e' rest ih =>
    obtain ⟨k', v'⟩ := e'
    by_cases h : k' = k
    · subst h
      simp only [set, if_true, List.mem_cons] at he
      rcases he with rfl | he
      · exact Or.inl rfl
      · refine Or.inr ⟨List.mem_cons_of_mem _ he, ?_⟩
        rintro rfl
        exact (List.nodup_cons.1 hnd).1 (List.mem_map.2 ⟨e, he, rfl⟩)
    · simp only [set, h, if_false, List.mem_cons] at he
      rcases he with rfl | he
      · exact Or.inr ⟨List.mem_cons_self _ _, h⟩
      · rcases ih (List.nodup_cons.1 hnd).2 he with rfl | ⟨h₁, h₂⟩
        · exact Or.inl rfl
        · exact Or.inr ⟨List.mem_cons_of_mem _ h₁, h₂⟩

theorem nodup_keys_set {m : ServiceMap} (k : String) (v : ServiceConfig)
    (hnd : (m.map Prod.fst).Nodup) : ((m.set k v).map Prod.fst).Nodup := by
  rw [keys_set]
  split
  · exact hnd
  · rename_i h
    exact List.Nodup.append hnd (List.nodup_singleton k) (by simpa using h)

theorem length_set (m : ServiceMap) (k : String) (v : ServiceConfig) :
    (m.set k v).length = if k ∈ m.map Prod.fst then m.length else m.length + 1 := by
  have h := congrArg List.length (keys_set m k v)
  rw [List.length_map] at h
  rw [h]
  split <;> simp

theorem get?_eq_some_iff {m : ServiceMap} (hnd : (m.map Prod.fst).Nodup) (k : String)
    (v : ServiceConfig) : m.get? k = some v ↔ (k, v) ∈ m := by
  induction m with
  | nil => simp [get?]
  | cons e rest ih =>
    obtain ⟨k', v'⟩ := e
    have hnd' := List.nodup_cons.1 hnd
    by_cases h : k' = k
    · subst h
      simp only [get?, if_true, Option.some.injEq, List.mem_cons, Prod.mk.injEq, true_and]
      constructor
      · intro h
        exact Or.inl h.symm
      · rintro (h | h)
        · exact h.symm
        · exact absurd (List.mem_map_of_mem Prod.fst h) hnd'.1
    · simp only [get?, h, if_false, ih hnd'.2, List.mem_cons, Prod.mk.injEq]
      constructor
      · exact Or.inr
      · rintro (⟨h', -⟩ | h')
        · exact absurd h'.symm h
        · exact h'

theorem get?_isSome_iff (m : ServiceMap) (k : String) :
    (m.get? k).isSome = true ↔ k ∈ m.map Prod.fst := by
  induction m with
  | nil => simp [get?]
  | cons e rest ih =>
    obtain ⟨k', v'⟩ := e
    by_cases h : k' = k
    · simp [get?, h]
    · have hne : ¬ k = k' := fun h' => h h'.symm
      simp only [get?, h, if_false, ih, List.map_cons, List.mem_cons, hne, false_or]

end ServiceMap

/-! ## Reachable registries -/

theorem registerAll_append (configs : List ServiceConfig) (config : ServiceConfig) :
    registerAll (configs ++ [config]) = RegisterService (registerAll configs) config := by
  simp [registerAll, List.foldl_append]

theorem registerAll_nodup_keys (configs : List ServiceConfig) :
    ((registerAll configs).services.map Prod.fst).Nodup := by
  induction configs using List.reverseRecOn with
  | nil => simp [registerAll, NewGateway]
  | append_singleton cs c ih =>
    rw [registerAll_append]
    exact ServiceMap.nodup_keys_set _ _ ih

theorem registerAll_key_eq_name (configs : List ServiceConfig) :
    ∀ e ∈ (registerAll configs).services, e.1 = e.2.Name := by
  induction configs using List.reverseRecOn with
  | nil => simp [registerAll, NewGateway]
  | append_singleton cs c ih =>
    rw [registerAll_append]
    intro e he
    rcases ServiceMap.mem_of_mem_set (registerAll_nodup_keys cs) he with rfl | ⟨h, -⟩
    · rfl
    · exact ih e h

theorem registerAll_mem_keys (configs : List ServiceConfig) (n : String) :
    n ∈ (registerAll configs).services.map Prod.fst ↔ n ∈ configs.map ServiceConfig.Name := by
  revert n
  induction configs using List.reverseRecOn with
  | nil => simp [registerAll, NewGateway]
  | append_singleton cs c ih =>
    rw [registerAll_append]
    intro n
    simp only [RegisterService, ServiceMap.keys_set]
    split
    · rename_i h
      rw [ih, List.map_append, List.mem_append]
      constructor
      · exact Or.inl
      · rintro (h' | h')
        · exact h'
        · simp only [List.map_cons, List.map_nil, List.mem_singleton] at h'
          rw [h']
          exact (ih _).1 h
    · simp [ih]

theorem registerAll_length (configs : List ServiceConfig) :
    (registerAll configs).services.length = (configs.map ServiceConfig.Name).toFinset.card := by
  rw [← List.length_map (registerAll configs).services Prod.fst,
    ← List.toFinset_card_of_nodup (registerAll_nodup_keys configs)]
  congr 1
  ext n
  simp only [List.mem_toFinset]
  exact registerAll_mem_keys configs n

theorem registerAll_get? (configs : List ServiceConfig) (n : String) :
    (registerAll configs).services.get? n =
      configs.reverse.find? (fun c => decide (c.Name = n)) := by
  induction configs using List.reverseRecOn with
  | nil => simp [registerAll, NewGateway, ServiceMap.get?]
  | append_singleton cs c ih =>
    rw [registerAll_append, List.reverse_append]
    simp only [RegisterService, List.reverse_cons, List.reverse_nil, List.nil_append,
      List.singleton_append, List.find?_cons]
    by_cases h : c.Name = n
    · subst h
      simp [ServiceMap.get?_set_self]
    · have hne : n ≠ c.Name := fun h' => h h'.symm
      rw [ServiceMap.get?_set_of_ne _ _ hne, ih]
      simp [h]


theorem RangeOrder.mem_iff {m order : ServiceMap} (h : RangeOrder m order)
    (e : String × ServiceConfig) : e ∈ order ↔ e ∈ m :=
  List.Perm.mem_iff h

theorem SegmentAligned_hasPrefix {path pfx : String}
    (h : SegmentAligned path pfx = true) : HasPrefix path pfx = true := by
  unfold SegmentAligned at h
  rw [Bool.or_eq_true] at h
  rcases h with h | h
  · rw [beq_iff_eq] at h
    subst h
    exact HasPrefix_refl _
  · exact HasPrefix_trans h (HasPrefix_append _ _)

/-- Two visiting orders of one map agree on whether the loop finds a service. -/
theorem targetService_isSome_order {m o₁ o₂ : ServiceMap} (path : String)
    (h₁ : RangeOrder m o₁) (h₂ : RangeOrder m o₂) :
    (targetService o₁ path).isSome = (targetService o₂ path).isSome := by
  rw [Bool.eq_iff_iff, targetService_isSome_iff, targetService_isSome_iff]
  constructor
  · rintro ⟨e, he, hp⟩
    exact ⟨e, (h₂.mem_iff e).2 ((h₁.mem_iff e).1 he), hp⟩
  · rintro ⟨e, he, hp⟩
    exact ⟨e, (h₁.mem_iff e).2 ((h₂.mem_iff e).1 he), hp⟩

/-- When at most one entry of the map passes the prefix test, every visiting
order makes the loop return the same result. -/
theorem targetService_order_irrelevant {m o₁ o₂ : ServiceMap} (path : String)
    (h₁ : RangeOrder m o₁) (h₂ : RangeOrder m o₂)
    (hone : ∀ e₁ ∈ m, ∀ e₂ ∈ m, HasPrefix path e₁.2.BasePath = true →
      HasPrefix path e₂.2.BasePath = true → e₁ = e₂) :
    targetService o₁ path = targetService o₂ path := by
  cases h : targetService o₁ path with
  | none =>
    have := targetService_isSome_order path h₁ h₂
    rw [h] at this
    cases h' : targetService o₂ path with
    | none => rfl
    | some t => rw [h'] at this; cases this
  | some s =>
    obtain ⟨⟨k, hk⟩, hp⟩ := targetService_some_mem h
    have hkm := (h₁.mem_iff _).1 hk
    symm
    apply targetService_of_unique
    · exact ⟨(k, s), (h₂.mem_iff _).2 hkm, hp⟩
    · intro e he hpe
      exact congrArg Prod.snd (hone e ((h₂.mem_iff _).1 he) (k, s) hkm hpe hp)

theorem mainGateway_services :
    mainGateway.services = [("user-service", userService), ("order-service", orderService)] := by
  decide

/-! ## Route resolution -/

/-- C1 (as stated, refuted): the request path `/api/v1/userswrongly` shares only a
raw, non-segment-aligned string prefix with the base path `/api/v1/users` of the
registered route `user-service`, and yet the matching loop of `ProxyHandler`
selects that route, in whatever order the registry of `main` is visited. -/
theorem targetService_userswrongly :
    HasPrefix "/api/v1/userswrongly" userService.BasePath = true ∧
    SegmentAligned "/api/v1/userswrongly" userService.BasePath = false ∧
    ("user-service", userService) ∈ mainGateway.services ∧
    ∀ order, RangeOrder mainGateway.services order →
      targetService order "/api/v1/userswrongly" = some userService := by
  refine ⟨by decide, by decide, by decide, ?_⟩
  intro order hord
  apply targetService_of_unique
  · exact ⟨("user-service", userService), (hord.mem_iff _).2 (by decide), by decide⟩
  · intro e he hp
    have hm := (hord.mem_iff _).1 he
    rw [mainGateway_services] at hm
    simp only [List.mem_cons, List.mem_singleton, List.not_mem_nil, or_false] at hm
    rcases hm with rfl | rfl
    · rfl
    · exact absurd hp (by decide)

/-- C1 (amended): route resolution tests raw string prefixes
(`strings.HasPrefix`), not path segments.  Under every visiting order of the
registry the selected route's base path is a raw string prefix of the request
path (the path is the base path followed by any characters, with no segment
boundary required); and a registered route that is the only candidate is
selected exactly when its base path is such a raw prefix. -/
theorem targetService_raw_prefix (g : Gateway) (order : ServiceMap) (path : String)
    (k : String) (s : ServiceConfig)
    (hord : RangeOrder g.services order) (hmem : (k, s) ∈ g.services) :
    (∀ t, targetService order path = some t → ∃ rest : String, path = t.BasePath ++ rest) ∧
    ((∀ e ∈ g.services, e.2 ≠ s → HasPrefix path e.2.BasePath = false) →
      (targetService order path = some s ↔ ∃ rest : String, path = s.BasePath ++ rest)) := by
  constructor
  · intro t ht
    exact (HasPrefix_iff_append _ _).1 (targetService_some_mem ht).2
  · intro hsole
    rw [← HasPrefix_iff_append]
    constructor
    · intro h
      exact (targetService_some_mem h).2
    · intro hp
      apply targetService_of_unique
      · exact ⟨(k, s), (hord.mem_iff _).2 hmem, hp⟩
      · intro e he hpe
        by_contra hne
        have := hsole e ((hord.mem_iff _).1 he) hne
        rw [hpe] at this
        cases this

theorem targetService_raw_prefix_witness :
    (∀ t, targetService mainGateway.services "/api/v1/userswrongly" = some t →
      ∃ rest : String, "/api/v1/userswrongly" = t.BasePath ++ rest) ∧
    ((∀ e ∈ mainGateway.services, e.2 ≠ userService →
        HasPrefix "/api/v1/userswrongly" e.2.BasePath = false) →
      (targetService mainGateway.services "/api/v1/userswrongly" = some userService ↔
        ∃ rest : String, "/api/v1/userswrongly" = userService.BasePath ++ rest)) :=
  targetService_raw_prefix mainGateway mainGateway.services "/api/v1/userswrongly"
    "user-service" userService (List.Perm.refl _) (by decide)

/-- C2 (as stated, refuted): in the registry built by registering `api`
(`/api/v1`) and `user-service` (`/api/v1/users`), the path `/api/v1/users/42`
begins with the base path of `user-service` at a segment boundary, but when the
loop visits `api` first it selects `api`, another route. -/
theorem segment_aligned_selects_other :
    SegmentAligned "/api/v1/users/42" userService.BasePath = true ∧
    ("user-service", userService) ∈ (registerAll [apiService, userService]).services ∧
    RangeOrder (registerAll [apiService, userService]).services
      [("api", apiService), ("user-service", userService)] ∧
    targetService [("api", apiService), ("user-service", userService)] "/api/v1/users/42"
      = some apiService ∧
    apiService ≠ userService := by
  decide

/-- C2 (amended): for every registry built by `RegisterService` calls, every
route `r` in it and every path that begins with the base path of `r` at a segment
boundary, route resolution under every visiting order selects a registered route
whose base path is a string prefix of the path (never "no match"); it selects
`r` itself whenever no other registered route's base path is a string prefix of
the path. -/
theorem targetService_segment_aligned (configs : List ServiceConfig) (order : ServiceMap)
    (path : String) (k : String) (r : ServiceConfig)
    (hmem : (k, r) ∈ (registerAll configs).services)
    (hord : RangeOrder (registerAll configs).services order)
    (hseg : SegmentAligned path r.BasePath = true) :
    (∃ s, targetService order path = some s ∧ HasPrefix path s.BasePath = true ∧
      (s.Name, s) ∈ (registerAll configs).services) ∧
    ((∀ e ∈ (registerAll configs).services, e.2 ≠ r →
        HasPrefix path e.2.BasePath = false) → targetService order path = some r) := by
  have hp := SegmentAligned_hasPrefix hseg
  have hex : ∃ e ∈ order, HasPrefix path e.2.BasePath = true :=
    ⟨(k, r), (hord.mem_iff _).2 hmem, hp⟩
  constructor
  · obtain ⟨s, hs⟩ := Option.isSome_iff_exists.1 ((targetService_isSome_iff order path).2 hex)
    obtain ⟨⟨k', hk'⟩, hps⟩ := targetService_some_mem hs
    have hm := (hord.mem_iff _).1 hk'
    have := registerAll_key_eq_name configs _ hm
    simp only at this
    subst this
    exact ⟨s, hs, hps, hm⟩
  · intro hsole
    apply targetService_of_unique hex
    intro e he hpe
    by_contra hne
    have := hsole e ((hord.mem_iff _).1 he) hne
    rw [hpe] at this
    cases this

theorem targetService_segment_aligned_witness :
    (∃ s, targetService [("order-service", orderService), ("user-service", userService)]
        "/api/v1/users/42" = some s ∧
      HasPrefix "/api/v1/users/42" s.BasePath = true ∧
      (s.Name, s) ∈ (registerAll [userService, orderService]).services) ∧
    ((∀ e ∈ (registerAll [userService, orderService]).services, e.2 ≠ userService →
        HasPrefix "/api/v1/users/42" e.2.BasePath = false) →
      targetService [("order-service", orderService), ("user-service", userService)]
        "/api/v1/users/42" = some userService) :=
  targetService_segment_aligned [userService, orderService]
    [("order-service", orderService), ("user-service", userService)] "/api/v1/users/42"
    "user-service" userService (by decide) (by decide) (by decide)


/-! ## Registration -/

/-- C3 (as stated, refuted): after `user-service` is registered, registering a
second configuration under the same name is not rejected: the registry then holds
the second configuration for that name and the first one is gone. -/
theorem reregister_overwrites :
    (RegisterService NewGateway userService).services.get? "user-service" = some userService ∧
    userServiceV2.Name = userService.Name ∧
    (RegisterService (RegisterService NewGateway userService) userServiceV2).services.get?
      "user-service" = some userServiceV2 ∧
    userServiceV2 ≠ userService := by
  decide

/-- C3 (amended): `RegisterService` has no error result.  Registering a
configuration whose name is already present replaces the configuration held for
that name by the new one; the entries of all other names and the number of
entries stay as they were. -/
theorem RegisterService_replaces (g : Gateway) (config old : ServiceConfig)
    (hold : g.services.get? config.Name = some old) :
    (RegisterService g config).services.get? config.Name = some config ∧
    (∀ k, k ≠ config.Name →
      (RegisterService g config).services.get? k = g.services.get? k) ∧
    (RegisterService g config).services.length = g.services.length := by
  refine ⟨ServiceMap.get?_set_self _ _ _, ?_, ?_⟩
  · intro k hk
    exact ServiceMap.get?_set_of_ne _ _ hk
  · have hmem : config.Name ∈ g.services.map Prod.fst := by
      rw [← ServiceMap.get?_isSome_iff, hold]
      rfl
    simp only [RegisterService, ServiceMap.length_set, hmem, if_true]

theorem RegisterService_replaces_witness :
    (RegisterService (RegisterService NewGateway userService) userServiceV2).services.get?
      userServiceV2.Name = some userServiceV2 ∧
    (∀ k, k ≠ userServiceV2.Name →
      (RegisterService (RegisterService NewGateway userService) userServiceV2).services.get? k
        = (RegisterService NewGateway userService).services.get? k) ∧
    (RegisterService (RegisterService NewGateway userService) userServiceV2).services.length
      = (RegisterService NewGateway userService).services.length :=
  RegisterService_replaces (RegisterService NewGateway userService) userServiceV2 userService
    (by decide)

/-- C4 (as stated, refuted): `/api/v1` is a proper prefix of `/api/v1/users`, and
registering `api` and then `user-service` leaves both routes in the registry:
the second registration is not rejected. -/
theorem overlapping_prefixes_registered :
    Overlaps userService.BasePath apiService.BasePath = true ∧
    ("api", apiService) ∈ (registerAll [apiService, userService]).services ∧
    ("user-service", userService) ∈ (registerAll [apiService, userService]).services := by
  decide

/-- C4 (amended): `RegisterService` accepts every route, whatever its path
prefix: after the call the new route is held under its name next to every
existing route of a different name, also when the two path prefixes overlap, so
reachable registries can hold overlapping prefixes. -/
theorem RegisterService_accepts (g : Gateway) (config : ServiceConfig)
    (e : String × ServiceConfig) (he : e ∈ g.services) (hne : e.1 ≠ config.Name) :
    e ∈ (RegisterService g config).services ∧
    (config.Name, config) ∈ (RegisterService g config).services :=
  ⟨ServiceMap.mem_set_of_ne _ _ he hne, ServiceMap.mem_set_self _ _ _⟩

theorem RegisterService_accepts_witness :
    Overlaps userService.BasePath apiService.BasePath = true ∧
    ("api", apiService) ∈ (RegisterService (registerAll [apiService]) userService).services ∧
    (userService.Name, userService) ∈
      (RegisterService (registerAll [apiService]) userService).services :=
  ⟨by decide,
    RegisterService_accepts (registerAll [apiService]) userService ("api", apiService)
      (by decide) (by decide)⟩

/-! ## Gateway responses -/

/-- C5 (as stated, refuted): for `/api/v1/unknown/1` no route of `main` matches,
and the body written by `ProxyHandler` is not
`{"error": "service not found", "path": "/api/v1/unknown/1"}`: the code writes the
message with a capital letter, `Service not found`. -/
theorem not_found_message_differs :
    targetService mainGateway.services "/api/v1/unknown/1" = none ∧
    (ProxyHandler offlineLib mainGateway.services
        (request "GET" "/api/v1/unknown/1")).response.Body ≠
      Body.json (JSON.obj [("error", JSON.str "service not found"),
                           ("path", JSON.str "/api/v1/unknown/1")]) := by
  refine ⟨by decide, ?_⟩
  have h : targetService mainGateway.services "/api/v1/unknown/1" = none := by decide
  simp [ProxyHandler, request, h]

/-- C5 (amended): for every registry, visiting order and request whose path no
registered route matches, `ProxyHandler` responds with status 404 and the JSON
body `{"error": "Service not found", "path": <path>}`, where `<path>` is exactly
the request path, and issues no upstream request. -/
theorem ProxyHandler_not_found (lib : Lib) (g : Gateway) (order : ServiceMap) (req : Request)
    (hord : RangeOrder g.services order)
    (hno : ∀ e ∈ g.services, HasPrefix req.URL.Path e.2.BasePath = false) :
    ProxyHandler lib order req =
      { response := { Status := 404,
                      Body := Body.json (JSON.obj [("error", JSON.str "Service not found"),
                                                   ("path", JSON.str req.URL.Path)]) },
        upstream := [] } := by
  have h : targetService order req.URL.Path = none :=
    (targetService_eq_none_iff _ _).2 fun e he => hno e ((hord.mem_iff e).1 he)
  simp [ProxyHandler, h, StatusNotFound]

theorem ProxyHandler_not_found_witness :
    ProxyHandler offlineLib [("order-service", orderService), ("user-service", userService)]
        (request "GET" "/api/v1/unknown/1") =
      { response := { Status := 404,
                      Body := Body.json (JSON.obj [("error", JSON.str "Service not found"),
                                                   ("path", JSON.str "/api/v1/unknown/1")]) },
        upstream := [] } :=
  ProxyHandler_not_found offlineLib mainGateway
    [("order-service", orderService), ("user-service", userService)]
    (request "GET" "/api/v1/unknown/1") (by decide) (by decide)

/-- C6 (as stated, refuted): with the upstream of `order-service` unreachable,
`POST /api/v1/orders` is matched and answered with status 502, but the body is
not the JSON document `{"error": "upstream unavailable", "service": "order-service"}`. -/
theorem bad_gateway_body_differs :
    targetService mainGateway.services "/api/v1/orders" = some orderService ∧
    (ProxyHandler offlineLib mainGateway.services
        (request "POST" "/api/v1/orders")).response.Status = 502 ∧
    (ProxyHandler offlineLib mainGateway.services
        (request "POST" "/api/v1/orders")).response.Body ≠
      Body.json (JSON.obj [("error", JSON.str "upstream unavailable"),
                           ("service", JSON.str "order-service")]) := by
  refine ⟨by decide, by decide, ?_⟩
  have h : targetService mainGateway.services "/api/v1/orders" = some orderService := by
    decide
  simp [ProxyHandler, request, h, offlineLib, ServeHTTP, ErrorHandler]

/-- C6 (amended): for every matched route whose target parses and every upstream
transport failure, the proxy error handler of `ProxyHandler` responds with status
502 and the plain-text body `Service unavailable`; the body is not JSON and does
not carry the route's name. -/
theorem ProxyHandler_upstream_failure (lib : Lib) (order : ServiceMap) (req : Request)
    (service : ServiceConfig) (targetURL : URL) (err : String)
    (hmatch : targetService order req.URL.Path = some service)
    (hparse : lib.Parse service.Target = some targetURL)
    (hfail : lib.RoundTrip (Director lib targetURL req) = Except.error err) :
    (ProxyHandler lib order req).response =
      { Status := 502, Body := Body.text "Service unavailable" } := by
  simp [ProxyHandler, hmatch, hparse, ServeHTTP, hfail, ErrorHandler, StatusBadGateway]

theorem ProxyHandler_upstream_failure_witness :
    (ProxyHandler offlineLib mainGateway.services (request "POST" "/api/v1/orders")).response =
      { Status := 502, Body := Body.text "Service unavailable" } :=
  ProxyHandler_upstream_failure offlineLib mainGateway.services
    (request "POST" "/api/v1/orders") orderService
    { Scheme := "http", Host := "localhost:8081", Path := "", RawQuery := "" }
    "dial tcp: connect: connection refused" (by decide) (by decide) rfl


/-! ## Visiting order -/

/-- C7 (as stated, refuted): the registry holding `api` (`/api/v1`) and
`user-service` (`/api/v1/users`) can be visited in two orders, and for the path
`/api/v1/users/42` the matching loop selects `api` under one and `user-service`
under the other. -/
theorem resolution_depends_on_order :
    RangeOrder overlapGateway.services [("api", apiService), ("user-service", userService)] ∧
    RangeOrder overlapGateway.services [("user-service", userService), ("api", apiService)] ∧
    targetService [("api", apiService), ("user-service", userService)] "/api/v1/users/42"
      = some apiService ∧
    targetService [("user-service", userService), ("api", apiService)] "/api/v1/users/42"
      = some userService ∧
    apiService ≠ userService := by
  decide

/-- C7 (amended): for every registry and request path, two runs of the matching
loop under any two visiting orders agree on whether a route matches (both select
a route or both report no match), and they select the same route whenever at
most one registered entry has a base path that is a string prefix of the path.
When several entries match, the selected route depends on the visiting order. -/
theorem targetService_deterministic (g : Gateway) (o₁ o₂ : ServiceMap) (path : String)
    (h₁ : RangeOrder g.services o₁) (h₂ : RangeOrder g.services o₂) :
    ((targetService o₁ path = none) ↔ (targetService o₂ path = none)) ∧
    ((∀ e₁ ∈ g.services, ∀ e₂ ∈ g.services, HasPrefix path e₁.2.BasePath = true →
        HasPrefix path e₂.2.BasePath = true → e₁ = e₂) →
      targetService o₁ path = targetService o₂ path) := by
  constructor
  · have h := targetService_isSome_order path h₁ h₂
    rw [← Option.not_isSome_iff_eq_none, ← Option.not_isSome_iff_eq_none, h]
  · exact targetService_order_irrelevant path h₁ h₂

theorem targetService_deterministic_witness :
    ((targetService [("user-service", userService), ("order-service", orderService)]
        "/api/v1/orders/7" = none) ↔
      (targetService [("order-service", orderService), ("user-service", userService)]
        "/api/v1/orders/7" = none)) ∧
    ((∀ e₁ ∈ mainGateway.services, ∀ e₂ ∈ mainGateway.services,
        HasPrefix "/api/v1/orders/7" e₁.2.BasePath = true →
        HasPrefix "/api/v1/orders/7" e₂.2.BasePath = true → e₁ = e₂) →
      targetService [("user-service", userService), ("order-service", orderService)]
          "/api/v1/orders/7" =
        targetService [("order-service", orderService), ("user-service", userService)]
          "/api/v1/orders/7") :=
  targetService_deterministic mainGateway
    [("user-service", userService), ("order-service", orderService)]
    [("order-service", orderService), ("user-service", userService)] "/api/v1/orders/7"
    (by decide) (by decide)

/-- C8 (as stated, refuted): both `/api/v1` and the longer `/api/v1/users` are
registered and match `/api/v1/users/42`; visiting `api` first, the loop selects
`api`, the route with the shorter prefix. -/
theorem first_match_not_longest :
    RangeOrder overlapGateway.services [("api", apiService), ("user-service", userService)] ∧
    HasPrefix "/api/v1/users/42" apiService.BasePath = true ∧
    HasPrefix "/api/v1/users/42" userService.BasePath = true ∧
    apiService.BasePath.length < userService.BasePath.length ∧
    targetService [("api", apiService), ("user-service", userService)] "/api/v1/users/42"
      = some apiService := by
  decide

/-- C8 (amended): route resolution has first-match semantics.  The route selected
by the loop of `ProxyHandler` is the first one, in the order the registry is
visited, whose base path is a string prefix of the path, whether or not a later
entry has a longer matching prefix; no route is returned exactly when no
registered base path is a prefix of the path. -/
theorem targetService_first_match (order : ServiceMap) (path : String) :
    ((targetService order path = none) ↔
      ∀ e ∈ order, HasPrefix path e.2.BasePath = false) ∧
    ∀ s, targetService order path = some s ↔
      ∃ pre k post, order = pre ++ (k, s) :: post ∧ HasPrefix path s.BasePath = true ∧
        ∀ e ∈ pre, HasPrefix path e.2.BasePath = false :=
  ⟨targetService_eq_none_iff order path, targetService_eq_some_iff order path⟩

/-! ## Introspection -/

/-- C9 (as stated, refuted): `main` registers `user-service` and then
`order-service`; the `range` in `ServicesHandler` may visit `order-service`
first, and the listing it then writes is not the one in registration order. -/
theorem services_listing_not_in_insertion_order :
    registerAll [userService, orderService] = mainGateway ∧
    RangeOrder mainGateway.services
      [("order-service", orderService), ("user-service", userService)] ∧
    (ServicesHandler [("order-service", orderService), ("user-service", userService)]).Body ≠
      Body.json (JSON.obj [("services", JSON.arr [
        JSON.obj [("name", JSON.str "user-service"), ("base_path", JSON.str "/api/v1/users"),
                  ("target", JSON.str "http://localhost:8080")],
        JSON.obj [("name", JSON.str "order-service"), ("base_path", JSON.str "/api/v1/orders"),
                  ("target", JSON.str "http://localhost:8081")]])]) := by
  refine ⟨by decide, by decide, ?_⟩
  simp [ServicesHandler, serviceInfo, orderService]

/-- C9 (amended): for every sequence of `RegisterService` calls, the listing
written by `ServicesHandler` is status 200 with one `{name, base_path, target}`
object per visited entry; the entries carry pairwise distinct names, the names
are exactly the registered names, each entry shows the configuration registered
last under its name, and the listing is a rearrangement of the one in
registration order (the order itself is the unspecified order of the map). -/
theorem ServicesHandler_listing (configs : List ServiceConfig) (order : ServiceMap)
    (hord : RangeOrder (registerAll configs).services order) :
    ServicesHandler order =
      { Status := 200,
        Body := Body.json (JSON.obj [("services", JSON.arr (order.map serviceInfo))]) } ∧
    (order.map Prod.fst).Nodup ∧
    (∀ n, n ∈ order.map Prod.fst ↔ n ∈ configs.map ServiceConfig.Name) ∧
    (∀ e ∈ order, configs.reverse.find? (fun c => decide (c.Name = e.1)) = some e.2) ∧
    List.Perm (order.map serviceInfo) ((registerAll configs).services.map serviceInfo) := by
  have hkeys : List.Perm (order.map Prod.fst) ((registerAll configs).services.map Prod.fst) :=
    List.Perm.map _ hord
  refine ⟨rfl, ?_, ?_, ?_, List.Perm.map _ hord⟩
  · exact (List.Perm.nodup_iff hkeys).2 (registerAll_nodup_keys configs)
  · intro n
    rw [List.Perm.mem_iff hkeys]
    exact registerAll_mem_keys configs n
  · intro e he
    rw [← registerAll_get?, ServiceMap.get?_eq_some_iff (registerAll_nodup_keys configs)]
    exact (hord.mem_iff e).1 he

theorem ServicesHandler_listing_witness :
    ServicesHandler [("order-service", orderService), ("user-service", userServiceV2)] =
      { Status := 200,
        Body := Body.json (JSON.obj [("services", JSON.arr
          ([("order-service", orderService), ("user-service", userServiceV2)].map
            serviceInfo))]) } ∧
    (([("order-service", orderService), ("user-service", userServiceV2)] : ServiceMap).map
      Prod.fst).Nodup ∧
    (∀ n, n ∈ ([("order-service", orderService), ("user-service", userServiceV2)] :
        ServiceMap).map Prod.fst ↔
      n ∈ [userService, orderService, userServiceV2].map ServiceConfig.Name) ∧
    (∀ e ∈ ([("order-service", orderService), ("user-service", userServiceV2)] : ServiceMap),
      [userService, orderService, userServiceV2].reverse.find?
        (fun c => decide (c.Name = e.1)) = some e.2) ∧
    List.Perm
      (([("order-service", orderService), ("user-service", userServiceV2)] : ServiceMap).map
        serviceInfo)
      ((registerAll [userService, orderService, userServiceV2]).services.map serviceInfo) :=
  ServicesHandler_listing [userService, orderService, userServiceV2]
    [("order-service", orderService), ("user-service", userServiceV2)] (by decide)

/-- C10: for every registry built by `RegisterService` calls, `HealthCheckHandler`
responds with status 200 and a body whose `status` is `ok`, whose `service` is
`api-gateway`, whose `timestamp` is the current Unix time and whose `services`
is the number of entries held in the registry, which is the number of distinct
names passed to `RegisterService`. -/
theorem HealthCheckHandler_ok (configs : List ServiceConfig) (now : Int) :
    HealthCheckHandler (registerAll configs) now =
      { Status := 200,
        Body := Body.json (JSON.obj [("status", JSON.str "ok"),
                                     ("service", JSON.str "api-gateway"),
                                     ("timestamp", JSON.num now),
                                     ("services", JSON.num
                                       ((configs.map ServiceConfig.Name).toFinset.card : Nat))]) } ∧
    (registerAll configs).services.length = (configs.map ServiceConfig.Name).toFinset.card := by
  refine ⟨?_, registerAll_length configs⟩
  simp only [HealthCheckHandler, StatusOK, registerAll_length]


/-! ## Target parsing and the outbound request -/

theorem HasPrefix_antisymm {s p : String} (h₁ : HasPrefix s p = true)
    (h₂ : HasPrefix p s = true) : s = p := by
  rw [HasPrefix_iff_isPrefix] at h₁ h₂
  exact String.ext (h₂.eq_of_length (Nat.le_antisymm h₂.length_le h₁.length_le))

theorem singleJoiningSlash_append {a b : String} (ha : HasSuffix a "/" = false)
    (hb : HasPrefix b "/" = true) : singleJoiningSlash a b = a ++ b := by
  simp [singleJoiningSlash, ha, hb]

/-- C11: for every matched route, when the target fails to parse at request time
`ProxyHandler` responds with status 500 (`Invalid target URL`) and issues no
upstream request; when the target parses, the handler goes on to the reverse
proxy, which issues the one outbound request, and the response is either the
upstream's own response or the 502 of the proxy error handler, so the 500 of
this branch is never written. -/
theorem ProxyHandler_invalid_target (lib : Lib) (order : ServiceMap) (req : Request)
    (service : ServiceConfig) (hmatch : targetService order req.URL.Path = some service) :
    (lib.Parse service.Target = none →
      ProxyHandler lib order req =
        { response := { Status := 500,
                        Body := Body.json (JSON.obj [("error", JSON.str "Invalid target URL")]) },
          upstream := [] }) ∧
    (∀ targetURL, lib.Parse service.Target = some targetURL →
      (ProxyHandler lib order req).upstream = [Director lib targetURL req] ∧
      ((∃ res, lib.RoundTrip (Director lib targetURL req) = Except.ok res ∧
          (ProxyHandler lib order req).response = res) ∨
        (∃ err, lib.RoundTrip (Director lib targetURL req) = Except.error err ∧
          (ProxyHandler lib order req).response =
            { Status := 502, Body := Body.text "Service unavailable" }))) := by
  constructor
  · intro hparse
    simp [ProxyHandler, hmatch, hparse, StatusInternalServerError]
  · intro targetURL hparse
    cases hrt : lib.RoundTrip (Director lib targetURL req) with
    | error err =>
      refine ⟨?_, Or.inr ⟨err, rfl, ?_⟩⟩ <;>
        simp [ProxyHandler, hmatch, hparse, ServeHTTP, hrt, ErrorHandler, StatusBadGateway]
    | ok res =>
      refine ⟨?_, Or.inl ⟨res, rfl, ?_⟩⟩ <;>
        simp [ProxyHandler, hmatch, hparse, ServeHTTP, hrt]

theorem ProxyHandler_invalid_target_witness :
    (unparsableLib.Parse scenarioUsers.Target = none →
      ProxyHandler unparsableLib [("users", scenarioUsers)] (request "GET" "/api/v1/users/42") =
        { response := { Status := 500,
                        Body := Body.json (JSON.obj [("error", JSON.str "Invalid target URL")]) },
          upstream := [] }) ∧
    (∀ targetURL, unparsableLib.Parse scenarioUsers.Target = some targetURL →
      (ProxyHandler unparsableLib [("users", scenarioUsers)]
          (request "GET" "/api/v1/users/42")).upstream =
        [Director unparsableLib targetURL (request "GET" "/api/v1/users/42")] ∧
      ((∃ res, unparsableLib.RoundTrip
            (Director unparsableLib targetURL (request "GET" "/api/v1/users/42")) =
              Except.ok res ∧
          (ProxyHandler unparsableLib [("users", scenarioUsers)]
            (request "GET" "/api/v1/users/42")).response = res) ∨
        (∃ err, unparsableLib.RoundTrip
            (Director unparsableLib targetURL (request "GET" "/api/v1/users/42")) =
              Except.error err ∧
          (ProxyHandler unparsableLib [("users", scenarioUsers)]
            (request "GET" "/api/v1/users/42")).response =
              { Status := 502, Body := Body.text "Service unavailable" }))) :=
  ProxyHandler_invalid_target unparsableLib [("users", scenarioUsers)]
    (request "GET" "/api/v1/users/42") scenarioUsers (by decide)

/-- C12 (as stated, refuted): `RegisterService` accepts any target.  With the
target `http://u:8080?x=1` the request `GET /api/v1/users/42?y=2` goes upstream
with the query `x=1&y=2`, not the inbound `y=2`; with the target
`http://u:8080/base/` it goes to the path `/base/api/v1/users/42`, which is not
the target's path followed by the inbound path. -/
theorem outbound_url_differs :
    targetService [("users", queryUsers)] "/api/v1/users/42" = some queryUsers ∧
    (ProxyHandler queryLib [("users", queryUsers)]
        { Method := "GET", Host := "localhost:8082",
          URL := { Scheme := "", Host := "", Path := "/api/v1/users/42",
                   RawQuery := "y=2" } }).upstream =
      [{ Method := "GET", Host := "u:8080",
         URL := { Scheme := "http", Host := "u:8080", Path := "/api/v1/users/42",
                  RawQuery := "x=1&y=2" } }] ∧
    ("x=1&y=2" : String) ≠ "y=2" ∧
    (ProxyHandler queryLib [("users", baseUsers)]
        { Method := "GET", Host := "localhost:8082",
          URL := { Scheme := "", Host := "", Path := "/api/v1/users/42",
                   RawQuery := "y=2" } }).upstream =
      [{ Method := "GET", Host := "u:8080",
         URL := { Scheme := "http", Host := "u:8080", Path := "/base/api/v1/users/42",
                  RawQuery := "y=2" } }] ∧
    ("/base/api/v1/users/42" : String) ≠ "/base/" ++ "/api/v1/users/42" := by
  decide

/-- C12 (amended): for every matched request whose path begins with a slash and
whose route target is a bare upstream base (its path does not end in a slash
and it carries no query, as in `scheme://host[:port]`), the one outbound request
issued by `ProxyHandler`, with the director of the standard reverse proxy, has
the scheme and host of the target, the target's path followed by the whole
inbound path (the matched prefix is not stripped), the inbound query unchanged
and the inbound method. -/
theorem ProxyHandler_outbound_url (lib : Lib) (order : ServiceMap) (req : Request)
    (service : ServiceConfig) (targetURL : URL)
    (hdir : lib.Director = rewriteRequestURL)
    (hmatch : targetService order req.URL.Path = some service)
    (hparse : lib.Parse service.Target = some targetURL)
    (hbase : HasSuffix targetURL.Path "/" = false)
    (hquery : targetURL.RawQuery = "")
    (hpath : HasPrefix req.URL.Path "/" = true) :
    (ProxyHandler lib order req).upstream =
      [{ Method := req.Method,
         Host := targetURL.Host,
         URL := { Scheme := targetURL.Scheme,
                  Host := targetURL.Host,
                  Path := targetURL.Path ++ req.URL.Path,
                  RawQuery := req.URL.RawQuery } }] := by
  have hup : (ProxyHandler lib order req).upstream = [Director lib targetURL req] := by
    cases hrt : lib.RoundTrip (Director lib targetURL req) <;>
      simp [ProxyHandler, hmatch, hparse, ServeHTTP, hrt]
  rw [hup]
  simp [Director, hdir, rewriteRequestURL, singleJoiningSlash_append hbase hpath, hquery]

theorem ProxyHandler_outbound_url_witness :
    (ProxyHandler onlineLib [("users", scenarioUsers)]
        { Method := "GET", Host := "localhost:8082",
          URL := { Scheme := "", Host := "", Path := "/api/v1/users/42",
                   RawQuery := "fields=id" } }).upstream =
      [{ Method := "GET",
         Host := "u:8080",
         URL := { Scheme := "http",
                  Host := "u:8080",
                  Path := "" ++ "/api/v1/users/42",
                  RawQuery := "fields=id" } }] :=
  ProxyHandler_outbound_url onlineLib [("users", scenarioUsers)]
    { Method := "GET", Host := "localhost:8082",
      URL := { Scheme := "", Host := "", Path := "/api/v1/users/42", RawQuery := "fields=id" } }
    scenarioUsers { Scheme := "http", Host := "u:8080", Path := "", RawQuery := "" }
    rfl (by decide) (by decide) (by decide) rfl (by decide)

/-- C13: for every matched request whose target parses, the director installed by
`ProxyHandler` sets the `Host` of the outbound request to the host of the parsed
target, whatever the inbound `Host` was and whatever the library director did
before, and that request is the one sent upstream. -/
theorem Director_sets_host (lib : Lib) (order : ServiceMap) (req : Request)
    (service : ServiceConfig) (targetURL : URL)
    (hmatch : targetService order req.URL.Path = some service)
    (hparse : lib.Parse service.Target = some targetURL) :
    (Director lib targetURL req).Host = targetURL.Host ∧
    (ProxyHandler lib order req).upstream = [Director lib targetURL req] := by
  refine ⟨rfl, ?_⟩
  cases hrt : lib.RoundTrip (Director lib targetURL req) <;>
    simp [ProxyHandler, hmatch, hparse, ServeHTTP, hrt]

theorem Director_sets_host_witness :
    (Director offlineLib { Scheme := "http", Host := "localhost:8081", Path := "", RawQuery := "" }
        (request "POST" "/api/v1/orders")).Host = "localhost:8081" ∧
    (ProxyHandler offlineLib mainGateway.services (request "POST" "/api/v1/orders")).upstream =
      [Director offlineLib
        { Scheme := "http", Host := "localhost:8081", Path := "", RawQuery := "" }
        (request "POST" "/api/v1/orders")] :=
  Director_sets_host offlineLib mainGateway.services (request "POST" "/api/v1/orders")
    orderService { Scheme := "http", Host := "localhost:8081", Path := "", RawQuery := "" }
    (by decide) (by decide)

/-! ## Boundary paths -/

/-- C19 (as stated, refuted): `user-service` is registered with the prefix
`/api/v1/users` next to `api` with `/api/v1`; the request path `/api/v1/users`,
exactly equal to the prefix, resolves to `api` when `api` is visited first. -/
theorem exact_path_selects_other :
    ("user-service", userService) ∈ overlapGateway.services ∧
    RangeOrder overlapGateway.services [("api", apiService), ("user-service", userService)] ∧
    userService.BasePath = "/api/v1/users" ∧
    targetService [("api", apiService), ("user-service", userService)] "/api/v1/users"
      = some apiService ∧
    apiService ≠ userService := by
  decide

/-- C19 (amended): for every registered route `r` with prefix `p` and every
visiting order, a request path exactly equal to `p` resolves to a route whose
base path is a string prefix of `p`, and to `r` itself whenever no other
registered route's base path is a string prefix of `p`; a request path that is a
proper prefix of `p` never resolves to `r`. -/
theorem targetService_boundary (g : Gateway) (order : ServiceMap) (k : String)
    (r : ServiceConfig) (hord : RangeOrder g.services order) (hmem : (k, r) ∈ g.services) :
    (∃ s, targetService order r.BasePath = some s ∧ HasPrefix r.BasePath s.BasePath = true) ∧
    ((∀ e ∈ g.services, e.2 ≠ r → HasPrefix r.BasePath e.2.BasePath = false) →
      targetService order r.BasePath = some r) ∧
    (∀ path, HasPrefix r.BasePath path = true → path ≠ r.BasePath →
      targetService order path ≠ some r) := by
  have hex : ∃ e ∈ order, HasPrefix r.BasePath e.2.BasePath = true :=
    ⟨(k, r), (hord.mem_iff _).2 hmem, HasPrefix_refl _⟩
  refine ⟨?_, ?_, ?_⟩
  · obtain ⟨s, hs⟩ :=
      Option.isSome_iff_exists.1 ((targetService_isSome_iff order r.BasePath).2 hex)
    exact ⟨s, hs, (targetService_some_mem hs).2⟩
  · intro hsole
    apply targetService_of_unique hex
    intro e he hpe
    by_contra hne
    have := hsole e ((hord.mem_iff _).1 he) hne
    rw [hpe] at this
    cases this
  · intro path hpre hne hsel
    exact hne (HasPrefix_antisymm (targetService_some_mem hsel).2 hpre)

theorem targetService_boundary_witness :
    (∃ s, targetService [("order-service", orderService), ("user-service", userService)]
        userService.BasePath = some s ∧
      HasPrefix userService.BasePath s.BasePath = true) ∧
    ((∀ e ∈ mainGateway.services, e.2 ≠ userService →
        HasPrefix userService.BasePath e.2.BasePath = false) →
      targetService [("order-service", orderService), ("user-service", userService)]
        userService.BasePath = some userService) ∧
    (∀ path, HasPrefix userService.BasePath path = true → path ≠ userService.BasePath →
      targetService [("order-service", orderService), ("user-service", userService)] path
        ≠ some userService) :=
  targetService_boundary mainGateway
    [("order-service", orderService), ("user-service", userService)] "user-service"
    userService (by decide) (by decide)

/-! ## The registry during request handling -/

theorem World.writeJSON_frame (w : World) (code : Nat) (obj : JSON) :
    (w.writeJSON code obj).gateway = w.gateway ∧ (w.writeJSON code obj).upstream = w.upstream :=
  ⟨rfl, rfl⟩

theorem World.ServeHTTP_gateway (w : World) (lib : Lib) (director : Request → Request)
    (errorHandler : String → Response) (req : Request) :
    (w.ServeHTTP lib director errorHandler req).gateway = w.gateway := by
  unfold World.ServeHTTP
  cases h : lib.RoundTrip (director req) <;> simp only [h]

/-- The registry can be written on the handlers' memory: registration does. -/
theorem World.RegisterService_writes :
    ((World.mk NewGateway none []).RegisterService userService).gateway ≠ NewGateway := by
  decide

/-- The handler functions on the memory write the response and send the upstream
requests that `ProxyHandler`, `HealthCheckHandler` and `ServicesHandler` compute
from the registry in the memory. -/
theorem HandlerFunc_agrees (lib : Lib) (visit : ServiceMap → ServiceMap) (now : Int)
    (req : Request) (w : World) :
    ((ProxyHandler.HandlerFunc lib visit req w).written =
        some (ProxyHandler lib (visit w.gateway.services) req).response ∧
      (ProxyHandler.HandlerFunc lib visit req w).upstream =
        w.upstream ++ (ProxyHandler lib (visit w.gateway.services) req).upstream) ∧
    (HealthCheckHandler.HandlerFunc now w).written = some (HealthCheckHandler w.gateway now) ∧
    (ServicesHandler.HandlerFunc visit w).written =
      some (ServicesHandler (visit w.gateway.services)) := by
  refine ⟨?_, rfl, rfl⟩
  cases hsel : targetService (visit w.gateway.services) req.URL.Path with
  | none => simp [ProxyHandler.HandlerFunc, ProxyHandler, hsel, World.writeJSON]
  | some service =>
    cases hparse : lib.Parse service.Target with
    | none => simp [ProxyHandler.HandlerFunc, ProxyHandler, hsel, hparse, World.writeJSON]
    | some targetURL =>
      cases hrt : lib.RoundTrip (Director lib targetURL req) <;>
        simp [ProxyHandler.HandlerFunc, ProxyHandler, hsel, hparse, World.ServeHTTP,
          ServeHTTP, hrt]

/-- C20: for every registry state and every request, running the handler
function of `ProxyHandler`, `HealthCheckHandler` or `ServicesHandler` on the
gateway's memory leaves the registry (the map of registered names with each
route's name, base path and target) as it was, although each of them writes the
response; and the two introspection handlers leave the upstream log as it was,
that is, they never invoke the proxy dispatcher. -/
theorem handlers_leave_registry (lib : Lib) (visit : ServiceMap → ServiceMap) (now : Int)
    (req : Request) (w : World) :
    (ProxyHandler.HandlerFunc lib visit req w).gateway = w.gateway ∧
    (HealthCheckHandler.HandlerFunc now w).gateway = w.gateway ∧
    (ServicesHandler.HandlerFunc visit w).gateway = w.gateway ∧
    (HealthCheckHandler.HandlerFunc now w).upstream = w.upstream ∧
    (ServicesHandler.HandlerFunc visit w).upstream = w.upstream ∧
    (ProxyHandler.HandlerFunc lib visit req w).written ≠ none ∧
    (HealthCheckHandler.HandlerFunc now w).written ≠ none ∧
    (ServicesHandler.HandlerFunc visit w).written ≠ none := by
  refine ⟨?_, (World.writeJSON_frame _ _ _).1, (World.writeJSON_frame _ _ _).1,
    (World.writeJSON_frame _ _ _).2, (World.writeJSON_frame _ _ _).2, ?_, ?_, ?_⟩
  · cases hsel : targetService (visit w.gateway.services) req.URL.Path with
    | none =>
      simp only [ProxyHandler.HandlerFunc, hsel]
      exact (World.writeJSON_frame _ _ _).1
    | some service =>
      cases hparse : lib.Parse service.Target with
      | none =>
        simp only [ProxyHandler.HandlerFunc, hsel, hparse]
        exact (World.writeJSON_frame _ _ _).1
      | some targetURL =>
        simp only [ProxyHandler.HandlerFunc, hsel, hparse]
        exact World.ServeHTTP_gateway _ _ _ _ _
  · rw [(HandlerFunc_agrees lib visit now req w).1.1]
    simp
  · simp [HealthCheckHandler.HandlerFunc, World.writeJSON]
  · simp [ServicesHandler.HandlerFunc, World.writeJSON]

/-! ## Registries without overlapping base paths -/

/-- Two base paths that are both prefixes of one path are comparable: one of
them is a prefix of the other. -/
theorem HasPrefix_comparable {path p q : String} (hp : HasPrefix path p = true)
    (hq : HasPrefix path q = true) : HasPrefix p q = true ∨ HasPrefix q p = true := by
  simp only [HasPrefix_iff_isPrefix] at *
  rcases Nat.le_total q.data.length p.data.length with h | h
  · exact Or.inl (List.prefix_of_prefix_length_le hq hp h)
  · exact Or.inr (List.prefix_of_prefix_length_le hp hq h)

/-- C21: for every registry in which no route's base path is a string prefix of
another route's base path, at most one registered route's base path is a prefix
of any given request path, and the route chosen by the loop of `ProxyHandler`
(or the absence of one) is the same under every two visiting orders of the
map. -/
theorem targetService_order_independent (g : Gateway) (o₁ o₂ : ServiceMap) (path : String)
    (hfree : ∀ e₁ ∈ g.services, ∀ e₂ ∈ g.services, e₁ ≠ e₂ →
      HasPrefix e₁.2.BasePath e₂.2.BasePath = false)
    (h₁ : RangeOrder g.services o₁) (h₂ : RangeOrder g.services o₂) :
    (∀ e₁ ∈ g.services, ∀ e₂ ∈ g.services, HasPrefix path e₁.2.BasePath = true →
      HasPrefix path e₂.2.BasePath = true → e₁ = e₂) ∧
    targetService o₁ path = targetService o₂ path := by
  have hone : ∀ e₁ ∈ g.services, ∀ e₂ ∈ g.services, HasPrefix path e₁.2.BasePath = true →
      HasPrefix path e₂.2.BasePath = true → e₁ = e₂ := by
    intro e₁ he₁ e₂ he₂ hp₁ hp₂
    by_contra hne
    rcases HasPrefix_comparable hp₁ hp₂ with h | h
    · rw [hfree e₁ he₁ e₂ he₂ hne] at h
      cases h
    · rw [hfree e₂ he₂ e₁ he₁ (fun h' => hne h'.symm)] at h
      cases h
  exact ⟨hone, targetService_order_irrelevant path h₁ h₂ hone⟩

theorem targetService_order_independent_witness :
    (∀ e₁ ∈ mainGateway.services, ∀ e₂ ∈ mainGateway.services,
      HasPrefix "/api/v1/orders/7" e₁.2.BasePath = true →
      HasPrefix "/api/v1/orders/7" e₂.2.BasePath = true → e₁ = e₂) ∧
    targetService [("user-service", userService), ("order-service", orderService)]
        "/api/v1/orders/7" =
      targetService [("order-service", orderService), ("user-service", userService)]
        "/api/v1/orders/7" :=
  targetService_order_independent mainGateway
    [("user-service", userService), ("order-service", orderService)]
    [("order-service", orderService), ("user-service", userService)] "/api/v1/orders/7"
    (by decide) (by decide) (by decide)


end GinGateway

namespace Bweng

/-! ## Sentinel errors of the two layers -/

theorem order_sentinels_differ :
    Orders.repository.ErrOrderNotFound ≠ Orders.service.ErrOrderNotFound := by
  decide

theorem user_sentinels_differ :
    Users.repository.ErrUserNotFound ≠ Users.service.ErrUserNotFound ∧
    Users.repository.ErrUserExists ≠ Users.service.ErrUserExists := by
  decide

/-! ## Order handlers -/

namespace Orders

/-- C14 (the code at the failing inputs): for a well-formed id, whenever the
repository reports `repository.ErrOrderNotFound`, the handlers `GetOrderByID`,
`UpdateOrderStatus` and `DeleteOrder` respond with status 500 and body
`{"error": "order not found"}`, not with 404: the service passes the
repository's error on unchanged and the handler compares it with
`service.ErrOrderNotFound`, a different error value. -/
theorem order_not_found_responds_500 {σ : Type} (db : DB σ Order) (now : Time) (st : σ)
    (idStr : String) (id : Nat) (req : UpdateOrderStatusRequest)
    (hid : ParseUint idStr 32 = some id) :
    (repository.GetByID db st id = Except.error repository.ErrOrderNotFound →
      handler.GetOrderByID db st idStr = errorJSON 500 "order not found") ∧
    ((repository.UpdateStatus db st id req.Status).2 =
        Except.error repository.ErrOrderNotFound →
      (handler.UpdateOrderStatus db now st idStr (Except.ok req)).2 =
        errorJSON 500 "order not found") ∧
    ((repository.Delete db st id).2 = some repository.ErrOrderNotFound →
      (handler.DeleteOrder db st idStr).2 = errorJSON 500 "order not found") := by
  refine ⟨?_, ?_, ?_⟩
  · intro h
    simp only [handler.GetOrderByID, hid, service.GetOrderByID, h]
    rw [if_neg order_sentinels_differ]
    rfl
  · intro h
    obtain ⟨st', r, hres⟩ : ∃ st' r, repository.UpdateStatus db st id req.Status = (st', r) :=
      ⟨_, _, rfl⟩
    rw [hres] at h
    simp only at h
    subst h
    simp only [handler.UpdateOrderStatus, hid, service.UpdateOrderStatus, hres]
    rw [if_neg order_sentinels_differ]
    rfl
  · intro h
    obtain ⟨st', r, hres⟩ : ∃ st' r, repository.Delete db st id = (st', r) := ⟨_, _, rfl⟩
    rw [hres] at h
    simp only at h
    subst h
    simp only [handler.DeleteOrder, hid, service.DeleteOrder, hres]
    rw [if_neg order_sentinels_differ]
    rfl

theorem order_not_found_responds_500_witness :
    handler.GetOrderByID orderDB [] "7" = errorJSON 500 "order not found" ∧
    (handler.UpdateOrderStatus orderDB 0 [] "7"
        (Except.ok { Status := OrderStatusShipped })).2 = errorJSON 500 "order not found" ∧
    (handler.DeleteOrder orderDB [] "7").2 = errorJSON 500 "order not found" :=
  have h := order_not_found_responds_500 orderDB 0 [] "7" 7 { Status := OrderStatusShipped }
    (by decide)
  ⟨h.1 rfl, h.2.1 rfl, h.2.2 rfl⟩

/-- C17: for every create-order request, if `UserClient.ValidateUserExists` fails,
whatever the reason, `OrderService.CreateOrder` returns `service.ErrUserNotFound`
and leaves the database as it was under every behaviour of the database handle
(the repository's `Create` is not called), and `OrderHandler.CreateOrder`
responds with status 404 and body `{"error": "User not found"}`. -/
theorem create_order_unvalidated_user {σ : Type} (db : DB σ Order)
    (client : UserServiceClient) (now : Time) (st : σ) (req : CreateOrderRequest)
    (hfail : service.UserClient.ValidateUserExists client req.UserID ≠ none) :
    service.CreateOrder db client now st req = (st, Except.error service.ErrUserNotFound) ∧
    handler.CreateOrder db client now st (Except.ok req) =
      (st, errorJSON 404 "User not found") := by
  obtain ⟨err, herr⟩ := Option.ne_none_iff_exists'.1 hfail
  have hsvc : service.CreateOrder db client now st req =
      (st, Except.error service.ErrUserNotFound) := by
    simp only [service.CreateOrder, herr]
  refine ⟨hsvc, ?_⟩
  simp only [handler.CreateOrder, hsvc, if_true]
  rfl

theorem create_order_unvalidated_user_witness :
    (service.CreateOrder orderDB downUserClient 0 [] orderForNine =
        (([] : List Order), Except.error service.ErrUserNotFound) ∧
      handler.CreateOrder orderDB downUserClient 0 [] (Except.ok orderForNine) =
        (([] : List Order), errorJSON 404 "User not found")) ∧
    (service.CreateOrder orderDB noUserClient 0 [] orderForNine =
        (([] : List Order), Except.error service.ErrUserNotFound) ∧
      handler.CreateOrder orderDB noUserClient 0 [] (Except.ok orderForNine) =
        (([] : List Order), errorJSON 404 "User not found")) :=
  ⟨create_order_unvalidated_user orderDB downUserClient 0 [] orderForNine (by decide),
    create_order_unvalidated_user orderDB noUserClient 0 [] orderForNine (by decide)⟩

/-- C23: for every create-order request whose user validation succeeds there is
one order that `OrderService.CreateOrder` hands to the repository's `Create`,
under every database: it carries the request's `UserID`, `ProductName`, `Price`
and `Quantity`, its `Status` is `pending` and its `CreatedAt` equals its
`UpdatedAt`.  Whenever that `Create` succeeds, the result is the response built
from the order as the database left it, and, the database having filled in only
the primary key, the response carries the same request fields, the status
`pending` and equal `CreatedAt` and `UpdatedAt`. -/
theorem CreateOrder_carries_request (client : UserServiceClient) (now : Time)
    (req : CreateOrderRequest)
    (hvalid : service.UserClient.ValidateUserExists client req.UserID = none) :
    ∃ passed : Order,
      (passed.UserID = req.UserID ∧ passed.ProductName = req.ProductName ∧
        passed.Price = req.Price ∧ passed.Quantity = req.Quantity ∧
        passed.Status = "pending" ∧ passed.CreatedAt = passed.UpdatedAt) ∧
      ∀ (σ : Type) (db : DB σ Order) (st st' : σ) (stored : Order),
        repository.Create db st passed = (st', stored, none) →
        service.CreateOrder db client now st req =
          (st', Except.ok (service.toOrderResponse stored)) ∧
        (stored = { passed with ID := stored.ID } →
          (service.toOrderResponse stored).UserID = req.UserID ∧
          (service.toOrderResponse stored).ProductName = req.ProductName ∧
          (service.toOrderResponse stored).Price = req.Price ∧
          (service.toOrderResponse stored).Quantity = req.Quantity ∧
          (service.toOrderResponse stored).Status = "pending" ∧
          (service.toOrderResponse stored).CreatedAt =
            (service.toOrderResponse stored).UpdatedAt) := by
  refine ⟨{ ID := 0, UserID := req.UserID, ProductName := req.ProductName,
            Price := req.Price, Quantity := req.Quantity, Status := OrderStatusPending,
            CreatedAt := now, UpdatedAt := now }, ⟨rfl, rfl, rfl, rfl, rfl, rfl⟩, ?_⟩
  intro σ db st st' stored hcreate
  constructor
  · simp only [service.CreateOrder, hvalid, hcreate]
  · intro hkeep
    rw [hkeep]
    exact ⟨rfl, rfl, rfl, rfl, rfl, rfl⟩

theorem CreateOrder_carries_request_witness :
    ∃ passed : Order,
      (passed.UserID = orderForNine.UserID ∧ passed.ProductName = orderForNine.ProductName ∧
        passed.Price = orderForNine.Price ∧ passed.Quantity = orderForNine.Quantity ∧
        passed.Status = "pending" ∧ passed.CreatedAt = passed.UpdatedAt) ∧
      ∀ (σ : Type) (db : DB σ Order) (st st' : σ) (stored : Order),
        repository.Create db st passed = (st', stored, none) →
        service.CreateOrder db okUserClient 300 st orderForNine =
          (st', Except.ok (service.toOrderResponse stored)) ∧
        (stored = { passed with ID := stored.ID } →
          (service.toOrderResponse stored).UserID = orderForNine.UserID ∧
          (service.toOrderResponse stored).ProductName = orderForNine.ProductName ∧
          (service.toOrderResponse stored).Price = orderForNine.Price ∧
          (service.toOrderResponse stored).Quantity = orderForNine.Quantity ∧
          (service.toOrderResponse stored).Status = "pending" ∧
          (service.toOrderResponse stored).CreatedAt =
            (service.toOrderResponse stored).UpdatedAt) :=
  CreateOrder_carries_request okUserClient 300 orderForNine (by decide)


end Orders

/-! ## User handlers -/

namespace Users

/-- C15 (the code at the failing inputs): for every bound create-user request,
when the repository's lookup finds a user with the same email or the same
username, no user is stored (the database is left as it was, under every
behaviour of the database handle), but `UserHandler.CreateUser` responds with
status 500 and body `{"error": "user already exists"}`, not with 409: the
repository returns `repository.ErrUserExists` and the handler compares it with
`service.ErrUserExists`, a different error value. -/
theorem create_existing_user_responds_500 {σ : Type} (db : DB σ User) (now : Time) (st : σ)
    (req : CreateUserRequest) (existing : User)
    (hexists : db.WhereFirst st
      (fun u => u.Email == req.Email || u.Username == req.Username) = Except.ok existing) :
    handler.CreateUser db now st (Except.ok req) =
      (st, errorJSON 500 "user already exists") := by
  simp only [handler.CreateUser, service.CreateUser, repository.Create, hexists]
  rw [if_neg user_sentinels_differ.2]
  rfl

theorem create_existing_user_responds_500_witness :
    handler.CreateUser userDB 200 [alice] (Except.ok aliceAgain) =
      ([alice], errorJSON 500 "user already exists") :=
  create_existing_user_responds_500 userDB 200 [alice] aliceAgain alice rfl

/-- C16 (the code at the failing inputs): for well-formed parameters, whenever the
repository reports `repository.ErrUserNotFound`, the handlers `GetUserByID`,
`GetUserByEmail`, `GetUserByUsername`, `UpdateUser` and `DeleteUser` respond with
status 500 and body `{"error": "user not found"}`, not with 404: the service
passes the repository's error on unchanged and the handler compares it with
`service.ErrUserNotFound`, a different error value. -/
theorem user_not_found_responds_500 {σ : Type} (db : DB σ User) (now : Time) (st : σ)
    (idStr : String) (id : Nat) (email username : String) (req : UpdateUserRequest)
    (hid : ParseUint idStr 32 = some id) (hemail : email ≠ "") (hname : username ≠ "") :
    (repository.GetByID db st id = Except.error repository.ErrUserNotFound →
      handler.GetUserByID db st idStr = errorJSON 500 "user not found") ∧
    (repository.GetByEmail db st email = Except.error repository.ErrUserNotFound →
      handler.GetUserByEmail db st email = errorJSON 500 "user not found") ∧
    (repository.GetByUsername db st username = Except.error repository.ErrUserNotFound →
      handler.GetUserByUsername db st username = errorJSON 500 "user not found") ∧
    ((repository.Update db st id req).2 = Except.error repository.ErrUserNotFound →
      (handler.UpdateUser db now st idStr (Except.ok req)).2 =
        errorJSON 500 "user not found") ∧
    ((repository.Delete db st id).2 = some repository.ErrUserNotFound →
      (handler.DeleteUser db st idStr).2 = errorJSON 500 "user not found") := by
  have hne := user_sentinels_differ.1
  refine ⟨?_, ?_, ?_, ?_, ?_⟩
  · intro h
    simp only [handler.GetUserByID, hid, service.GetUserByID, h]
    rw [if_neg hne]
    rfl
  · intro h
    have he : (email == "") = false := by simpa using hemail
    simp only [handler.GetUserByEmail, he, service.GetUserByEmail, h]
    rw [if_neg hne]
    rfl
  · intro h
    have hn : (username == "") = false := by simpa using hname
    simp only [handler.GetUserByUsername, hn, service.GetUserByUsername, h]
    rw [if_neg hne]
    rfl
  · intro h
    obtain ⟨st', r, hres⟩ : ∃ st' r, repository.Update db st id req = (st', r) := ⟨_, _, rfl⟩
    rw [hres] at h
    simp only at h
    subst h
    simp only [handler.UpdateUser, hid, service.UpdateUser, hres]
    rw [if_neg hne]
    rfl
  · intro h
    obtain ⟨st', r, hres⟩ : ∃ st' r, repository.Delete db st id = (st', r) := ⟨_, _, rfl⟩
    rw [hres] at h
    simp only at h
    subst h
    simp only [handler.DeleteUser, hid, service.DeleteUser, hres]
    rw [if_neg hne]
    rfl

theorem user_not_found_responds_500_witness :
    handler.GetUserByID userDB [alice] "2" = errorJSON 500 "user not found" ∧
    handler.GetUserByEmail userDB [alice] "bob@example.com" =
      errorJSON 500 "user not found" ∧
    handler.GetUserByUsername userDB [alice] "bob" = errorJSON 500 "user not found" ∧
    (handler.UpdateUser userDB 200 [alice] "2"
        (Except.ok
          { Username := "bob", Email := "bob@example.com", FirstName := "", LastName := "" })).2 =
      errorJSON 500 "user not found" ∧
    (handler.DeleteUser userDB [alice] "2").2 = errorJSON 500 "user not found" :=
  have h := user_not_found_responds_500 userDB 200 [alice] "2" 2 "bob@example.com" "bob"
    { Username := "bob", Email := "bob@example.com", FirstName := "", LastName := "" }
    (by decide) (by decide) (by decide)
  ⟨h.1 rfl, h.2.1 rfl, h.2.2.1 rfl, h.2.2.2.1 rfl, h.2.2.2.2 rfl⟩

/-- C22: for every existing user and every update request there is one user that
`UserRepository.Update` hands to `Save`, under every database: each of
`Username`, `Email`, `FirstName` and `LastName` is the request's value when that
is a non-empty string and the stored value when it is empty, and the `ID` is the
stored one.  When the save succeeds, `Update` returns the user as the database
left it behind the pointer, and, the save having refreshed only `UpdatedAt`, the
returned user has the same five fields.  For an id the database has no record
of, `Update` returns `repository.ErrUserNotFound` and leaves the database as it
was (nothing is saved). -/
theorem Update_overwrites_nonempty (user : User) (updates : UpdateUserRequest) :
    (∃ updated : User,
      (updated.ID = user.ID ∧
        updated.Username = (if updates.Username = "" then user.Username else updates.Username) ∧
        updated.Email = (if updates.Email = "" then user.Email else updates.Email) ∧
        updated.FirstName =
          (if updates.FirstName = "" then user.FirstName else updates.FirstName) ∧
        updated.LastName =
          (if updates.LastName = "" then user.LastName else updates.LastName)) ∧
      ∀ (σ : Type) (db : DB σ User) (st st' : σ) (id : Nat) (saved : User),
        db.First st id = Except.ok user →
        (db.Save st updated = (st', saved, none) →
          repository.Update db st id updates = (st', Except.ok saved) ∧
          (saved = { updated with UpdatedAt := saved.UpdatedAt } →
            saved.ID = user.ID ∧
            saved.Username =
              (if updates.Username = "" then user.Username else updates.Username) ∧
            saved.Email = (if updates.Email = "" then user.Email else updates.Email) ∧
            saved.FirstName =
              (if updates.FirstName = "" then user.FirstName else updates.FirstName) ∧
            saved.LastName =
              (if updates.LastName = "" then user.LastName else updates.LastName))) ∧
        (∀ err, db.Save st updated = (st', saved, some err) →
          repository.Update db st id updates = (st', Except.error err))) ∧
    (∀ (σ : Type) (db : DB σ User) (st : σ) (id : Nat),
      db.First st id = Except.error Gorm.ErrRecordNotFound →
      repository.Update db st id updates = (st, Except.error repository.ErrUserNotFound)) := by
  refine ⟨⟨{ ID := user.ID,
              Username := if updates.Username = "" then user.Username else updates.Username,
              Email := if updates.Email = "" then user.Email else updates.Email,
              FirstName :=
                if updates.FirstName = "" then user.FirstName else updates.FirstName,
              LastName := if updates.LastName = "" then user.LastName else updates.LastName,
              CreatedAt := user.CreatedAt,
              UpdatedAt := user.UpdatedAt }, ⟨rfl, rfl, rfl, rfl, rfl⟩, ?_⟩, ?_⟩
  · intro σ db st st' id saved hfirst
    have hstep : ∀ r : σ × User × Option GoError,
        db.Save st
          { ID := user.ID,
            Username := if updates.Username = "" then user.Username else updates.Username,
            Email := if updates.Email = "" then user.Email else updates.Email,
            FirstName :=
              if updates.FirstName = "" then user.FirstName else updates.FirstName,
            LastName := if updates.LastName = "" then user.LastName else updates.LastName,
            CreatedAt := user.CreatedAt,
            UpdatedAt := user.UpdatedAt } = r →
        repository.Update db st id updates =
          (match r with
            | (st', _, some err) => (st', Except.error err)
            | (st', left, none) => (st', Except.ok left)) := by
      intro r hr
      subst hr
      obtain ⟨uid, uname, uemail, ufirst, ulast, ucreated, uupdated⟩ := user
      simp only [repository.Update, hfirst]
      by_cases h₁ : updates.Username = "" <;> by_cases h₂ : updates.Email = "" <;>
        by_cases h₃ : updates.FirstName = "" <;> by_cases h₄ : updates.LastName = "" <;>
        simp [h₁, h₂, h₃, h₄]
    constructor
    · intro hsave
      refine ⟨by rw [hstep _ hsave], ?_⟩
      intro hkeep
      rw [hkeep]
      exact ⟨rfl, rfl, rfl, rfl, rfl⟩
    · intro err hsave
      rw [hstep _ hsave]
  · intro σ db st id hfirst
    simp only [repository.Update, hfirst]
    rfl

theorem Update_overwrites_nonempty_witness :
    (∃ updated : User,
      (updated.ID = alice.ID ∧
        updated.Username =
          (if newEmail.Username = "" then alice.Username else newEmail.Username) ∧
        updated.Email = (if newEmail.Email = "" then alice.Email else newEmail.Email) ∧
        updated.FirstName =
          (if newEmail.FirstName = "" then alice.FirstName else newEmail.FirstName) ∧
        updated.LastName =
          (if newEmail.LastName = "" then alice.LastName else newEmail.LastName)) ∧
      ∀ (σ : Type) (db : DB σ User) (st st' : σ) (id : Nat) (saved : User),
        db.First st id = Except.ok alice →
        (db.Save st updated = (st', saved, none) →
          repository.Update db st id newEmail = (st', Except.ok saved) ∧
          (saved = { updated with UpdatedAt := saved.UpdatedAt } →
            saved.ID = alice.ID ∧
            saved.Username =
              (if newEmail.Username = "" then alice.Username else newEmail.Username) ∧
            saved.Email = (if newEmail.Email = "" then alice.Email else newEmail.Email) ∧
            saved.FirstName =
              (if newEmail.FirstName = "" then alice.FirstName else newEmail.FirstName) ∧
            saved.LastName =
              (if newEmail.LastName = "" then alice.LastName else newEmail.LastName))) ∧
        (∀ err, db.Save st updated = (st', saved, some err) →
          repository.Update db st id newEmail = (st', Except.error err))) ∧
    (∀ (σ : Type) (db : DB σ User) (st : σ) (id : Nat),
      db.First st id = Except.error Gorm.ErrRecordNotFound →
      repository.Update db st id newEmail = (st, Except.error repository.ErrUserNotFound)) :=
  Update_overwrites_nonempty alice newEmail

end Users

end Bweng
